import Mathlib

/-!
Shallow embedding of the SuperGBA emulator core (gbajs3-core.js and its
revision snapshots).  The embedding follows the most evolved revision of
each component: the `MemoryBus`, PPU (`updatePPU`, `flushRenderQueue`,
`renderScanLine`, `renderBGScanLine`, `convertPaletteColor`) and DMA
(`dmaTransfer`, `handleIOWrite`) of the "Scanline Rendering & Palette Fix"
revision, the `loadRom` entry point shared by all revisions, and the
branch-capable `GBA_CPU.executeNextInstruction` of the revision that
implements the B instruction.

Conventions:
* every byte buffer (`Uint8Array` / `ArrayBuffer`) is a total function
  `Nat → Nat` holding byte values, together with a fixed capacity;
* `DataView.getUint16/32` and `setUint16/32` are modelled by `dvGet16/32`
  and `dvSet16/32`, which return `none` exactly when the JS call would
  throw a `RangeError` (access extending past the end of the buffer);
  accesses at compile-time-in-bounds constant offsets (the PPU register
  reads at fixed offsets 0x0, 0x4, 0x6, 0x8..) are modelled by the total
  `ioGet16`/`ioSet16`;
* functions that can propagate a JS exception return `Option`;
* JavaScript numbers only ever hold nonnegative integers on these code
  paths except where noted (`Int` is used for the cycle budget, for the
  video-mode field which can be set to -1, and for the CPU's
  `instructionAddress`, which can be negative before the first branch).
-/

set_option maxRecDepth 4000

/-- Pointwise update of a byte map, `m[i] := v`. -/
def fupd (m : Nat → Nat) (i v : Nat) : Nat → Nat :=
  fun j => if j = i then v else m j

/-- `DataView.getUint16(off, true)` on a buffer of `cap` bytes:
little-endian, `none` when the access would throw a `RangeError`. -/
def dvGet16 (m : Nat → Nat) (cap off : Nat) : Option Nat :=
  if off + 2 ≤ cap then some (m off + 256 * m (off + 1)) else none

/-- `DataView.getUint32(off, true)` on a buffer of `cap` bytes. -/
def dvGet32 (m : Nat → Nat) (cap off : Nat) : Option Nat :=
  if off + 4 ≤ cap then
    some (m off + 256 * m (off + 1) + 65536 * m (off + 2) + 16777216 * m (off + 3))
  else none

/-- `DataView.setUint16(off, v, true)`: stores the low 16 bits of `v`
little-endian, `none` when the access would throw. -/
def dvSet16 (m : Nat → Nat) (cap off v : Nat) : Option (Nat → Nat) :=
  if off + 2 ≤ cap then some (fupd (fupd m off (v % 256)) (off + 1) (v / 256 % 256))
  else none

/-- `DataView.setUint32(off, v, true)`. -/
def dvSet32 (m : Nat → Nat) (cap off v : Nat) : Option (Nat → Nat) :=
  if off + 4 ≤ cap then
    some (fupd (fupd (fupd (fupd m off (v % 256)) (off + 1) (v / 256 % 256))
      (off + 2) (v / 65536 % 256)) (off + 3) (v / 16777216 % 256))
  else none

/-- A loaded ROM or BIOS image: a byte buffer with its `byteLength`. -/
structure Rom where
  size : Nat
  data : Nat → Nat

/-- The state of one `GBAJS3_Core` instance together with its `MemoryBus`
(the bus holds direct references to the core's buffers, so the two are one
state record) and its `GBA_CPU` register file.  Canvas / DOM objects and
the animation-frame driver carry no emulated state and are not modelled. -/
structure Core where
  ewram : Nat → Nat        -- Uint8Array(0x40000)
  iwram : Nat → Nat        -- Uint8Array(0x8000)
  vram : Nat → Nat         -- Uint8Array(0x18000)
  paletteRAM : Nat → Nat   -- Uint8Array(0x400)
  oam : Nat → Nat          -- Uint8Array(0x400)
  ioRegs : Nat → Nat       -- DataView over ArrayBuffer(0x400)
  paletteRGB : Nat → Nat   -- Uint8Array(512 * 3), the palette cache
  frameData : Nat → Nat    -- ImageData(240,160).data, 153600 bytes
  romData : Option Rom
  biosData : Option Rom
  registers : Nat → Nat    -- Uint32Array(16); index 15 is the PC
  cpsr : Nat
  currentScanline : Nat
  lastRenderedLine : Nat
  cyclesToNextHBlank : Int
  currentVideoMode : Int   -- -1 encodes forced blank
  paused : Bool
  romLoaded : Bool

/-- The state built by the `GBAJS3_Core` constructor: zeroed buffers,
scanline 0, a full cycle budget, CPU PC preset to 0x8. -/
def coreInit (bios : Option Rom) : Core where
  ewram := fun _ => 0
  iwram := fun _ => 0
  vram := fun _ => 0
  paletteRAM := fun _ => 0
  oam := fun _ => 0
  ioRegs := fun _ => 0
  paletteRGB := fun _ => 0
  frameData := fun _ => 0
  romData := none
  biosData := bios
  registers := fun i => if i = 15 then 8 else 0
  cpsr := 0x10
  currentScanline := 0
  lastRenderedLine := 0
  cyclesToNextHBlank := 1232
  currentVideoMode := 0
  paused := true
  romLoaded := false

/-- `romView.getUint16(offset % romLength)` wrapped in the source's
try/catch that yields the sentinel 0xFFFF. -/
def romRead16 (rom : Rom) (off0 : Nat) : Nat :=
  let off := off0 % rom.size
  if off + 2 ≤ rom.size then rom.data off + 256 * rom.data (off + 1) else 0xFFFF

/-- `romView.getUint32(offset % romLength)` wrapped in the source's
try/catch that yields the sentinel 0xDEADBEEF. -/
def romRead32 (rom : Rom) (off0 : Nat) : Nat :=
  let off := off0 % rom.size
  if off + 4 ≤ rom.size then
    rom.data off + 256 * rom.data (off + 1) + 65536 * rom.data (off + 2) +
      16777216 * rom.data (off + 3)
  else 0xDEADBEEF

/-- `biosView.getUint32(address)` wrapped in the source's try/catch that
yields 0 (no wrap for the BIOS region). -/
def biosRead32 (bios : Rom) (a : Nat) : Nat :=
  if a + 4 ≤ bios.size then
    bios.data a + 256 * bios.data (a + 1) + 65536 * bios.data (a + 2) +
      16777216 * bios.data (a + 3)
  else 0

/-- `MemoryBus.read16` after the BIOS check (IO, PRAM, VRAM, ROM, then the
default 0). -/
def busRead16Tail (st : Core) (a : Nat) : Option Nat :=
  if 0x04000000 ≤ a ∧ a < 0x04000400 then
    dvGet16 st.ioRegs 0x400 (a - 0x04000000)
  else if 0x05000000 ≤ a ∧ a < 0x05000400 then
    dvGet16 st.paletteRAM 0x400 ((a - 0x05000000) % 0x400)
  else if 0x06000000 ≤ a ∧ a < 0x07000000 then
    dvGet16 st.vram 0x18000 ((a - 0x06000000) % 0x18000)
  else
    match st.romData with
    | some rom => if 0x08000000 ≤ a then some (romRead16 rom (a - 0x08000000)) else some 0
    | none => some 0

/-- `MemoryBus.read16` (final revision): `address >>>= 0`, then BIOS, IO,
PRAM, VRAM, ROM, default 0.  The BIOS `getUint16` is not wrapped in
try/catch in the source, so an out-of-range BIOS access propagates. -/
def busRead16 (a0 : Nat) (st : Core) : Option Nat :=
  let a := a0 % 4294967296
  match st.biosData with
  | some bios => if a < 0x4000 then dvGet16 bios.data bios.size a else busRead16Tail st a
  | none => busRead16Tail st a

/-- `MemoryBus.read32` after the BIOS check: ROM, then the fallback
`read16(a) | (read16(a + 2) << 16)` (both halves are < 2^16, so the JS
bitwise-or is plain addition of the shifted high half). -/
def busRead32Tail (st : Core) (a : Nat) : Option Nat :=
  match st.romData with
  | some rom =>
    if 0x08000000 ≤ a then some (romRead32 rom (a - 0x08000000))
    else do
      let lo ← busRead16 a st
      let hi ← busRead16 (a + 2) st
      some (lo + 65536 * hi)
  | none => do
      let lo ← busRead16 a st
      let hi ← busRead16 (a + 2) st
      some (lo + 65536 * hi)

/-- `MemoryBus.read32` (final revision): `address >>>= 0`, BIOS (try/catch
to 0), ROM (try/catch to 0xDEADBEEF), else two chained 16-bit reads. -/
def busRead32 (a0 : Nat) (st : Core) : Option Nat :=
  let a := a0 % 4294967296
  match st.biosData with
  | some bios => if a < 0x4000 then some (biosRead32 bios a) else busRead32Tail st a
  | none => busRead32Tail st a

/-! ## PPU: palette cache, scanline rendering, flush queue, timing -/

/-- 5-bit → 8-bit colour channel expansion `(c5 << 3) | (c5 >> 2)`. -/
def expand5 (v : Nat) : Nat := (v <<< 3) ||| (v >>> 2)

/-- `ioRegsView.getUint16(off, true)` at a statically in-bounds offset. -/
def ioGet16 (st : Core) (off : Nat) : Nat :=
  st.ioRegs off + 256 * st.ioRegs (off + 1)

/-- `ioRegsView.setUint16(off, v, true)` at a statically in-bounds offset. -/
def ioSet16 (st : Core) (off v : Nat) : Core :=
  { st with ioRegs := fupd (fupd st.ioRegs off (v % 256)) (off + 1) (v / 256 % 256) }

/-- One byte store into `frameData`; out-of-range stores on a typed array
are silently dropped, as in JS. -/
def fdWrite (st : Core) (i v : Nat) : Core :=
  { st with frameData := if i < 153600 then fupd st.frameData i v else st.frameData }

/-- Four byte stores `frameData[i..i+3] = r,g,b,a`. -/
def fdWrite4 (st : Core) (i r g b a : Nat) : Core :=
  fdWrite (fdWrite (fdWrite (fdWrite st i r) (i + 1) g) (i + 2) b) (i + 3) a

/-- `vramView.getUint16(off, true)` at an offset the caller keeps in
bounds (all VRAM reads in the renderer are guarded and even). -/
def vram16 (st : Core) (off : Nat) : Nat :=
  st.vram off + 256 * st.vram (off + 1)

/-- `GBAJS3_Core.convertPaletteColor(index, color16)`: converts a 15-bit
BGR value and stores the RGB888 triple in the palette cache. -/
def convertPaletteColor (st : Core) (index c : Nat) : Core :=
  let b5 := c &&& 0x1F
  let g5 := (c >>> 5) &&& 0x1F
  let r5 := (c >>> 10) &&& 0x1F
  let palIndex := index * 3
  { st with paletteRGB := fupd (fupd (fupd st.paletteRGB palIndex (expand5 r5))
      (palIndex + 1) (expand5 g5)) (palIndex + 2) (expand5 b5) }

/-- `GBAJS3_Core.readBgControl(bgIndex)`: decoded BGnCNT fields, read via
the bus at the in-bounds IO offset `8 + 2*bgIndex`. -/
def readBgControl (st : Core) (bgIndex : Nat) : Nat × Nat × Nat :=
  let bgcnt := ioGet16 st (0x008 + bgIndex * 2)
  (((bgcnt >>> 2) &&& 0x3), ((bgcnt >>> 7) &&& 0x1), ((bgcnt >>> 8) &&& 0x1F))

/-- The pixel loop body of `renderBGScanLine` (one of the 8 pixels of the
current tile row). -/
def bgPixelStep (is8bpp tileBytes tileDataOffset lineInTile flipX flipY paletteID tileX
    line : Nat) (s2 : Core) (px : Nat) : Core :=
  let localPx := if flipX ≠ 0 then 7 - px else px
  let localPy := if flipY ≠ 0 then 7 - lineInTile else lineInTile
  let bytesPerTileRow := tileBytes / 8
  let byteOffset := tileDataOffset + localPy * bytesPerTileRow +
    localPx / (if is8bpp ≠ 0 then 1 else 2)
  if byteOffset ≥ 0x18000 then s2
  else
    let tileByte := s2.vram byteOffset
    let paletteIndex :=
      if is8bpp ≠ 0 then tileByte
      else if localPx % 2 = 0 then tileByte &&& 0xF else tileByte >>> 4
    if paletteIndex = 0 then s2
    else
      let paletteIndex15 :=
        if is8bpp ≠ 0 then paletteIndex else paletteID * 16 + paletteIndex
      let palR := s2.paletteRGB (paletteIndex15 * 3)
      let palG := s2.paletteRGB (paletteIndex15 * 3 + 1)
      let palB := s2.paletteRGB (paletteIndex15 * 3 + 2)
      let screenX := tileX * 8 + px
      if screenX ≥ 240 then s2
      else fdWrite4 s2 ((line * 240 + screenX) * 4) palR palG palB 0xFF

/-- The tile-column loop body of `renderBGScanLine` (one of the 30 tile
columns crossing the scanline). -/
def bgTileStep (is8bpp tileBase mapBase tileY lineInTile line : Nat)
    (s : Core) (tileX : Nat) : Core :=
  let mapOffset := mapBase + (tileY * 32 + tileX) * 2
  if mapOffset ≥ 0x18000 then s
  else
    let mapEntry := vram16 s mapOffset
    let tileID := mapEntry &&& 0x3FF
    if tileID = 0 then s
    else
      let flipX := (mapEntry >>> 10) &&& 0x1
      let flipY := (mapEntry >>> 11) &&& 0x1
      let paletteID := (mapEntry >>> 12) &&& 0xF
      let tileBytes := if is8bpp ≠ 0 then 64 else 32
      let tileDataOffset := tileBase + tileID * tileBytes
      (List.range 8).foldl
        (bgPixelStep is8bpp tileBytes tileDataOffset lineInTile flipX flipY paletteID
          tileX line) s

/-- `GBAJS3_Core.renderBGScanLine(bgIndex, line)`: one scanline of one
tiled background layer (fixed scroll 0,0). -/
def renderBGScanLine (st0 : Core) (bgIndex line : Nat) : Core :=
  let bg := readBgControl st0 bgIndex
  let tileBase := bg.1 * 0x4000
  let is8bpp := bg.2.1
  let mapBase := bg.2.2 * 0x800
  let lineInTile := line % 8
  let tileY := line / 8
  (List.range 30).foldl (bgTileStep is8bpp tileBase mapBase tileY lineInTile line) st0

/-- One step of the backdrop fill loop of `renderScanLine`. -/
def backdropStep (base r g b : Nat) (s : Core) (t : Nat) : Core :=
  fdWrite4 s (base + t * 4) r g b 0xFF

/-- The backdrop fill loop of `renderScanLine`: paints the 240 pixels of
`line` with the cached colour of palette index 0, alpha 0xFF (the same
loop appears verbatim in both the forced-blank branch and step 1). -/
def fillBackdropLine (st0 : Core) (line : Nat) : Core :=
  (List.range 240).foldl
    (backdropStep (line * 240 * 4) (st0.paletteRGB 0) (st0.paletteRGB 1)
      (st0.paletteRGB 2)) st0

/-- One pixel of the mode-3 branch of `renderScanLine`: read the 16-bit
value at VRAM offset `(line*240+x)*2` and, when it is nonzero, overwrite
the frame pixel with its RGB888 expansion. -/
def mode3Step (line : Nat) (s : Core) (x : Nat) : Core :=
  let vOff := (line * 240 + x) * 2
  if vOff ≥ 0x18000 then s
  else
    let c := vram16 s vOff
    if c = 0 then s
    else
      let r8 := expand5 ((c >>> 10) &&& 0x1F)
      let g8 := expand5 ((c >>> 5) &&& 0x1F)
      let b8 := expand5 (c &&& 0x1F)
      fdWrite4 s ((line * 240 + x) * 4) r8 g8 b8 0xFF

/-- The mode-3 branch of `renderScanLine`. -/
def renderMode3Line (st0 : Core) (line : Nat) : Core :=
  (List.range 240).foldl (mode3Step line) st0

/-- The layer-dispatch step of the mode-0 branch of `renderScanLine`
(layers are visited in order 3, 2, 1, 0; a layer renders only when its
DISPCNT enable bit `1 << (8 + bg)` is set). -/
def bgDispatchStep (dispcnt line : Nat) (s : Core) (bg : Nat) : Core :=
  if dispcnt &&& (1 <<< (8 + bg)) ≠ 0 then renderBGScanLine s bg line else s

/-- `GBAJS3_Core.renderScanLine(line)`: forced blank paints the backdrop
only; otherwise backdrop first, then dispatch on DISPCNT mode bits
(mode 0 draws layers 3→0 whose enable bit is set; mode 3 is the bitmap;
other modes leave the backdrop).  The source also reads DISPSTAT into an
unused local, with no effect. -/
def renderScanLine (st0 : Core) (line : Nat) : Core :=
  let dispcnt := ioGet16 st0 0x000
  if dispcnt &&& 0x80 ≠ 0 then
    fillBackdropLine st0 line
  else
    let st1 := fillBackdropLine st0 line
    let mode := dispcnt &&& 0x7
    if mode = 0 then
      [3, 2, 1, 0].foldl (bgDispatchStep dispcnt line) st1
    else if mode = 3 then renderMode3Line st1 line
    else st1

/-- The `while (line !== currentScanline)` loop of `flushRenderQueue`,
with an explicit step bound.  For `line, cur ≤ 227` the loop reaches
`cur` in at most 228 steps, so the bound is never hit there (for
`cur ≥ 228` the JS loop would not terminate).  The body renders `line`
when it is visible: -/
def renderIfVisible (st : Core) (line : Nat) : Core :=
  if line < 160 then renderScanLine st line else st

/-- The loop itself. -/
def flushLoop : Nat → Nat → Nat → Core → Core
  | 0, _, _, st => st
  | fuel + 1, line, cur, st =>
    if line = cur then st
    else flushLoop fuel (if line + 1 ≥ 228 then 0 else line + 1) cur (renderIfVisible st line)

/-- `GBAJS3_Core.flushRenderQueue()`: renders every line from
`lastRenderedLine` (inclusive) up to `currentScanline` (exclusive,
wrapping at 228) that is visible (< 160), then records
`lastRenderedLine = currentScanline`.  (`drawToScreen` only paints the
canvas and reads state, so it is not modelled.) -/
def flushRenderQueue (st : Core) : Core :=
  if st.lastRenderedLine = st.currentScanline then st
  else
    let st1 := flushLoop 228 st.lastRenderedLine st.currentScanline st
    { st1 with lastRenderedLine := st.currentScanline }

/-- The closed form of the set of lines the flush loop visits: the
half-open wrapping interval from `last` (inclusive) to `cur` (exclusive),
in visit order. -/
def linesToRender (last cur : Nat) : List Nat :=
  (List.range ((cur + 228 - last) % 228)).map (fun i => (last + i) % 228)

/-- The tail of one iteration of the `while (cyclesToNextHBlank <= 0)`
body of `updatePPU`: VCOUNT write, V-counter-match flag, DISPSTAT
write-back. -/
def scanTail (st3 : Core) (d3 s3 : Nat) : Core :=
  let st4 := ioSet16 st3 0x006 s3
  let vmatch := (d3 >>> 8) &&& 0xFF
  let d4 := if s3 = vmatch then d3 ||| 0x0004 else d3 &&& 0xFFFB
  ioSet16 st4 0x004 d4

/-- One iteration of the `while (cyclesToNextHBlank <= 0)` body of
`updatePPU`: conditional H-blank set (the budget test at loop entry is
against `H_CYCLES - H_BLANK_START_CYCLE = 226`), budget += 1232, H-blank
clear, scanline increment, V-blank flag update (set on entering line 160,
which also triggers `flushRenderQueue`; cleared on wrapping to line 0),
then `scanTail`. -/
def scanStep (st0 : Core) : Core :=
  let b := st0.cyclesToNextHBlank
  let d0 := ioGet16 st0 0x004
  let st1 := if b ≤ (226 : Int) ∧ d0 &&& 0x0002 = 0 then ioSet16 st0 0x004 (d0 ||| 0x0002) else st0
  let d1 := if b ≤ (226 : Int) ∧ d0 &&& 0x0002 = 0 then d0 ||| 0x0002 else d0
  let st2 := { st1 with cyclesToNextHBlank := b + 1232 }
  let d2 := d1 &&& 0xFFFD
  let s1 := st2.currentScanline + 1
  if s1 = 160 then
    scanTail (flushRenderQueue { st2 with currentScanline := s1 }) (d2 ||| 0x0001) s1
  else if s1 ≥ 228 then
    scanTail { st2 with currentScanline := 0 } (d2 &&& 0xFFFE) 0
  else
    scanTail { st2 with currentScanline := s1 } d2 s1

/-- The `while (cyclesToNextHBlank <= 0)` loop, with a step bound large
enough for every advance considered here. -/
def ppuLoop : Nat → Core → Core
  | 0, st => st
  | fuel + 1, st =>
    if st.cyclesToNextHBlank ≤ 0 then ppuLoop fuel (scanStep st) else st

/-- `GBAJS3_Core.updatePPU(cycles)`. -/
def updatePPU (st : Core) (cycles : Int) : Core :=
  ppuLoop 300 { st with cyclesToNextHBlank := st.cyclesToNextHBlank - cycles }

/-- The V-blank flag invariant: the scanline counter stays in 0..227 and
DISPSTAT bit 0 is set exactly on the V-blank lines 160..227. -/
abbrev VbInv (st : Core) : Prop :=
  st.currentScanline ≤ 227 ∧ (ioGet16 st 0x004 % 2 = 1 ↔ 160 ≤ st.currentScanline)

/-! ## Bus writes, the IO-write observer and DMA

`MemoryBus.write16` on an IO address notifies `GBAJS3_Core.handleIOWrite`,
which may trigger `dmaTransfer`, whose unit writes go back through
`write16`.  The JS recursion is unbounded (a DMA targeting its own control
register re-triggers itself); the embedding indexes the whole cluster by
the depth of nested observer invocations.  `busFns d` provides the bus
functions allowed to re-enter the observer to depth `d`; at depth 0 every
function reports exhaustion (`none`), which no theorem below ever reaches.
Within one depth level the call graph is acyclic
(`handleIOWrite → dmaTransfer → write32 → write16`), and `write16`
re-enters the observer one level lower. -/

/-- The `for (i = 0; i < transferCount; i++)` loop of `dmaTransfer`:
`count` unit transfers through the bus, advancing both pointers by the
unit size. -/
def dmaLoopGo (w16 w32 : Core → Nat → Nat → Option Core) (tsize : Nat) :
    Nat → Core → Nat → Nat → Option Core
  | 0, st, _, _ => some st
  | n + 1, st, cs, cd =>
    if tsize = 4 then
      match busRead32 cs st with
      | none => none
      | some v =>
        match w32 st cd v with
        | none => none
        | some st1 => dmaLoopGo w16 w32 tsize n st1 (cs + 4) (cd + 4)
    else
      match busRead16 cs st with
      | none => none
      | some v =>
        match w16 st cd v with
        | none => none
        | some st1 => dmaLoopGo w16 w32 tsize n st1 (cs + 2) (cd + 2)

/-- `MemoryBus.write16`, with the observer (`handleIOWrite`) injected:
IO (register store, then observer call — the `if (this.core)` guard is
always true for the core's own bus), PRAM (raw store plus palette-cache
update; a 16-bit store at an odd PRAM offset computes a fractional cache
index, and fractional-index stores on a typed array are dropped), VRAM,
IWRAM, EWRAM, silent fall-through. -/
def write16Body (hiow : Core → Nat → Nat → Option Core)
    (st : Core) (a0 v0 : Nat) : Option Core :=
  let a := a0 % 4294967296
  let v := v0 % 65536
  if 0x04000000 ≤ a ∧ a < 0x04000400 then
    match dvSet16 st.ioRegs 0x400 (a - 0x04000000) v with
    | none => none
    | some m => hiow { st with ioRegs := m } a v
  else if 0x05000000 ≤ a ∧ a < 0x05000400 then
    match dvSet16 st.paletteRAM 0x400 ((a - 0x05000000) % 0x400) v with
    | none => none
    | some m =>
      some (if (a - 0x05000000) % 0x400 % 2 = 0 then
          convertPaletteColor { st with paletteRAM := m } ((a - 0x05000000) % 0x400 / 2) v
        else { st with paletteRAM := m })
  else if 0x06000000 ≤ a ∧ a < 0x07000000 then
    match dvSet16 st.vram 0x18000 ((a - 0x06000000) % 0x18000) v with
    | none => none
    | some m => some { st with vram := m }
  else if 0x03000000 ≤ a ∧ a < 0x03008000 then
    match dvSet16 st.iwram 0x8000 ((a - 0x03000000) % 0x8000) v with
    | none => none
    | some m => some { st with iwram := m }
  else if 0x02000000 ≤ a ∧ a < 0x02040000 then
    match dvSet16 st.ewram 0x40000 ((a - 0x02000000) % 0x40000) v with
    | none => none
    | some m => some { st with ewram := m }
  else some st

/-- `MemoryBus.write32`: two chained 16-bit writes (low half first). -/
def write32Body (w16 : Core → Nat → Nat → Option Core)
    (st : Core) (a v : Nat) : Option Core :=
  match w16 st a (v &&& 0xFFFF) with
  | none => none
  | some st1 => w16 st1 (a + 2) ((v >>> 16) &&& 0xFFFF)

/-- `GBAJS3_Core.dmaTransfer(channelIndex)`: source, destination, count
and control read through the bus from the channel's register window;
a stored count of 0 means 0x4000 units; unit size 4 when control bit 10
is set, else 2; source pointer word-aligned and destination pointer
halfword-aligned before the loop; the enable bit (bit 15) cleared in the
control register on completion. -/
def dmaTransferBody (w16 : Core → Nat → Nat → Option Core)
    (w32 : Core → Nat → Nat → Option Core) (st : Core) (ch : Nat) : Option Core :=
  let base := 0x40000B0 + ch * 12
  match busRead32 (base - 8) st, busRead32 (base - 4) st,
        busRead16 (base + 4) st, busRead16 (base + 2) st with
  | some srcAddr, some dstAddr, some dmaCntH, some dmaCntL =>
    let transferCount := if dmaCntL = 0 then 0x4000 else dmaCntL &&& 0xFFFF
    let transferSize := if dmaCntH &&& 0x400 ≠ 0 then 4 else 2
    if transferCount = 0 then some st
    else
      let currentSrc := srcAddr - srcAddr % 4
      let currentDst := dstAddr - dstAddr % 2
      match dmaLoopGo w16 w32 transferSize transferCount st currentSrc currentDst with
      | none => none
      | some st1 => w16 st1 (base + 4) (dmaCntH &&& 0x7FFF)
  | _, _, _, _ => none

/-- `GBAJS3_Core.handleIOWrite(address, value)`: flush the render queue
on any PPU-register write (offset below 0x100), track the video mode on
DISPCNT writes (-1 for forced blank), trigger DMA channel 3 when
DMA3CNT_H (offset 0x0DA) is written with bit 15 set. -/
def handleIOWriteBody (dma : Core → Nat → Option Core)
    (st : Core) (a v : Nat) : Option Core :=
  let off := a - 0x04000000
  let st1 := if off < 0x100 then flushRenderQueue st else st
  if off = 0x000 then
    some { st1 with currentVideoMode :=
      if v &&& 0x80 ≠ 0 then -1 else ((v &&& 0x7 : Nat) : Int) }
  else if off = 0x0DA then
    if v &&& 0x8000 ≠ 0 then dma st1 3 else some st1
  else some st1

/-- The observer (`handleIOWrite`) allowed to nest to depth `d`: its DMA
trigger writes through a `write16` whose own observer is one level
shallower.  Depth 0 reports exhaustion, which no theorem below reaches
(no execution path exercised here nests more than three observer
invocations). -/
def observerAt : Nat → Core → Nat → Nat → Option Core
  | 0 => fun _ _ _ => none
  | d + 1 =>
    let w16 := write16Body (observerAt d)
    let w32 := write32Body w16
    handleIOWriteBody (dmaTransferBody w16 w32)

/-- Top-level `MemoryBus.write16`. -/
def busWrite16 : Core → Nat → Nat → Option Core := write16Body (observerAt 8)

/-- Top-level `MemoryBus.write32`. -/
def busWrite32 : Core → Nat → Nat → Option Core := write32Body busWrite16

/-- `GBAJS3_Core.loadRom(romData)`: an absent or empty buffer throws
before anything is mutated; otherwise the ROM is installed on the bus and
emulation is unpaused.  The result is `Except.error s` when the JS call
throws with the core left in state `s`, and `Except.ok` with the new
state otherwise (the animation-frame scheduling touches no core state). -/
def loadRom (st : Core) (romData : Option Rom) : Except Core Core :=
  match romData with
  | none => .error st
  | some rom =>
    if rom.size = 0 then .error st
    else .ok { st with romData := some rom, romLoaded := true, paused := false }

/-! ## The branch-capable CPU revision

`GBA_CPU.executeNextInstruction` of the revision that implements the B
instruction, together with that revision's `MemoryBus` (PRAM/VRAM/IO
reads and writes, BIOS/ROM 32-bit reads, a direct 32-bit write path, and
no IO-write observer).  That revision's bus does not normalise addresses
with `>>> 0`; the only call site that can produce a negative address is
the instruction fetch at `R15 - 8`, so the 32-bit read takes an `Int`
address (a negative `DataView` index throws, which the BIOS read's
try/catch converts to 0).  JS signed shifts followed by small masks agree
with unsigned shifts, and `(x >> 26) === k` for `k = 0, 1` agrees with
the unsigned comparison, so the decode uses `>>>`. -/

structure Core2 where
  paletteRAM : Nat → Nat   -- Uint8Array(0x400)
  vram : Nat → Nat         -- Uint8Array(0x18000)
  ioRegs : Nat → Nat       -- DataView over ArrayBuffer(0x400)
  romData : Option Rom
  biosData : Option Rom
  registers : Nat → Nat    -- Uint32Array(16); index 15 is the PC
  cpsr : Nat

/-- This revision's `MemoryBus.read32`: BIOS (try/catch to 0), ROM
(try/catch to 0xDEADBEEF), default 0. -/
def bus2Read32 (st : Core2) (a : Int) : Nat :=
  match st.biosData with
  | some bios =>
    if a < 0x4000 then
      if 0 ≤ a ∧ a.toNat + 4 ≤ bios.size then
        bios.data a.toNat + 256 * bios.data (a.toNat + 1) +
          65536 * bios.data (a.toNat + 2) + 16777216 * bios.data (a.toNat + 3)
      else 0
    else bus2Read32Rom st a
  | none => bus2Read32Rom st a
where
  bus2Read32Rom (st : Core2) (a : Int) : Nat :=
    match st.romData with
    | some rom => if 0x08000000 ≤ a then romRead32 rom (a - 0x08000000).toNat else 0
    | none => 0

/-- This revision's `MemoryBus.read16`: PRAM (unwrapped offset), VRAM
(wrapped), IO, else `read32 & 0xFFFF`. -/
def bus2Read16 (st : Core2) (a : Nat) : Option Nat :=
  if 0x05000000 ≤ a ∧ a < 0x05000400 then
    dvGet16 st.paletteRAM 0x400 (a - 0x05000000)
  else if 0x06000000 ≤ a ∧ a < 0x07000000 then
    dvGet16 st.vram 0x18000 ((a - 0x06000000) % 0x18000)
  else if 0x04000000 ≤ a ∧ a < 0x04000400 then
    dvGet16 st.ioRegs 0x400 (a - 0x04000000)
  else some (bus2Read32 st a &&& 0xFFFF)

/-- This revision's `MemoryBus.write16`: PRAM, VRAM, IO, silent
fall-through; no observer hook. -/
def bus2Write16 (st : Core2) (a v : Nat) : Option Core2 :=
  if 0x05000000 ≤ a ∧ a < 0x05000400 then
    match dvSet16 st.paletteRAM 0x400 ((a - 0x05000000) % 0x400) v with
    | none => none
    | some m => some { st with paletteRAM := m }
  else if 0x06000000 ≤ a ∧ a < 0x07000000 then
    match dvSet16 st.vram 0x18000 ((a - 0x06000000) % 0x18000) v with
    | none => none
    | some m => some { st with vram := m }
  else if 0x04000000 ≤ a ∧ a < 0x04000400 then
    match dvSet16 st.ioRegs 0x400 (a - 0x04000000) v with
    | none => none
    | some m => some { st with ioRegs := m }
  else some st

/-- This revision's `MemoryBus.write32`: direct `setUint32` stores (not
two chained 16-bit writes). -/
def bus2Write32 (st : Core2) (a v : Nat) : Option Core2 :=
  if 0x05000000 ≤ a ∧ a < 0x05000400 then
    match dvSet32 st.paletteRAM 0x400 ((a - 0x05000000) % 0x400) v with
    | none => none
    | some m => some { st with paletteRAM := m }
  else if 0x06000000 ≤ a ∧ a < 0x07000000 then
    match dvSet32 st.vram 0x18000 ((a - 0x06000000) % 0x18000) v with
    | none => none
    | some m => some { st with vram := m }
  else if 0x04000000 ≤ a ∧ a < 0x04000400 then
    match dvSet32 st.ioRegs 0x400 (a - 0x04000000) v with
    | none => none
    | some m => some { st with ioRegs := m }
  else some st

/-- `GBA_CPU.setZNFlags(result)`: clear N and Z, set Z when the result is
0 and N from bit 31 (the CPSR is kept as a 32-bit pattern). -/
def setZNFlags2 (cpsr result : Nat) : Nat :=
  let c := cpsr &&& 0x3FFFFFFF
  let c := if result = 0 then c ||| 0x40000000 else c
  if result &&& 0x80000000 ≠ 0 then c ||| 0x80000000 else c

/-- The branch displacement: 24-bit field shifted left by 2, then
sign-extended by or-ing 0xFC000000 when bit 25 of the shifted value is
set (the JS value is a signed 32-bit int). -/
def armBranchOffset (instr : Nat) : Int :=
  let raw := (instr &&& 0xFFFFFF) <<< 2
  if raw &&& 0x02000000 ≠ 0 then ((raw ||| 0xFC000000 : Nat) : Int) - 4294967296
  else (raw : Int)

/-- `GBA_CPU.executeNextInstruction` of the branch-capable revision:
fetch at `R15 - 8`, advance R15 by 4, then — only when the condition
field is AL (0b1110) — execute a branch, a data-processing instruction
(AND, ORR, MOV, with flag update when the S bit is set, and a plain
`return` on any other opcode), or a load/store with a 12-bit immediate
offset.  Register stores go through `ToUint32` (mod 2^32). -/
def executeNextInstruction2 (st : Core2) : Option Core2 :=
  let currentPC := st.registers 15
  let instructionAddress : Int := (currentPC : Int) - 8
  let instruction := bus2Read32 st instructionAddress
  let opcode := (instruction >>> 21) &&& 0xF
  let cond := (instruction >>> 28) &&& 0xF
  let isBranch := (instruction >>> 25) &&& 0b111 = 0b101
  let isDataProcessing := instruction >>> 26 = 0b00
  let isLoadStore := instruction >>> 26 = 0b01
  let isStore := (instruction >>> 20) &&& 0x1 = 0x0
  let regs1 := fupd st.registers 15 ((currentPC + 4) % 4294967296)
  let st1 := { st with registers := regs1 }
  if cond = 0b1110 then
    if isBranch then
      let newPC := (((currentPC : Int) + armBranchOffset instruction) % 4294967296).toNat
      some { st1 with registers := fupd regs1 15 newPC }
    else if isDataProcessing then
      let Rd := (instruction >>> 12) &&& 0xF
      let isImmediate := instruction &&& 0x02000000 ≠ 0
      let RnIndex := (instruction >>> 16) &&& 0xF
      let operand1 := regs1 RnIndex
      let operand2 :=
        if isImmediate then instruction &&& 0xFF
        else
          let Rm := instruction &&& 0xF
          if Rm = 15 then (instructionAddress + 8).toNat else regs1 Rm
      let result? : Option Nat :=
        if opcode = 0b0000 then some (operand1 &&& operand2)
        else if opcode = 0b1100 then some (operand1 ||| operand2)
        else if opcode = 0b1101 then some operand2
        else none
      match result? with
      | none => some st1    -- unhandled opcode: bare `return`, PC already advanced
      | some result =>
        let regs2 := fupd regs1 Rd (result % 4294967296)
        let cpsr2 :=
          if instruction &&& 0x00100000 ≠ 0 then setZNFlags2 st.cpsr result else st.cpsr
        some { st1 with registers := regs2, cpsr := cpsr2 }
    else if isLoadStore then
      let Rd := (instruction >>> 12) &&& 0xF
      let Rn := (instruction >>> 16) &&& 0xF
      let isByteTransfer := (instruction >>> 22) &&& 0x1
      let offset := instruction &&& 0xFFF
      let baseAddress := regs1 Rn
      let targetAddress := baseAddress + offset
      let isLoad := (instruction >>> 20) &&& 0x1 = 0x1
      if isStore then
        let value := regs1 Rd
        if isByteTransfer ≠ 0 then some st1
        else if targetAddress &&& 0x3 ≠ 0 then
          match bus2Write16 st1 targetAddress (value &&& 0xFFFF) with
          | none => none
          | some st2 => some st2
        else
          match bus2Write32 st1 targetAddress value with
          | none => none
          | some st2 => some st2
      else if isLoad then
        let loaded? : Option Nat :=
          if isByteTransfer ≠ 0 then some (bus2Read32 st1 (targetAddress : Int) &&& 0xFF)
          else if targetAddress &&& 0x3 ≠ 0 then bus2Read16 st1 targetAddress
          else some (bus2Read32 st1 (targetAddress : Int))
        match loaded? with
        | none => none
        | some loadedValue =>
          let regs2 := fupd regs1 Rd (loadedValue % 4294967296)
          let regs3 := if Rd = 15 then fupd regs2 15 (regs2 15 &&& 0xFFFFFFFC) else regs2
          some { st1 with registers := regs3 }
      else some st1
    else some st1
  else some st1

/-! ## Derived forms used by the statements -/

/-- A 16-bit write immediately followed by a 16-bit read of the same
address (the round-trip observation of the bus). -/
def w16r16 (st : Core) (a v : Nat) : Option Nat :=
  (busWrite16 st a v).bind (fun s => busRead16 a s)

/-- The four RGBA bytes of pixel (x, y) of the frame buffer. -/
def pixelAt (st : Core) (x y : Nat) : Nat × Nat × Nat × Nat :=
  let i := (y * 240 + x) * 4
  (st.frameData i, st.frameData (i + 1), st.frameData (i + 2), st.frameData (i + 3))

/-- The RGB888 expansion of a 15-bit BGR colour, with opaque alpha, as
the spec states it: `r8 = (r5 << 3) | (r5 >> 2)`, likewise g and b. -/
def rgb888 (c : Nat) : Nat × Nat × Nat × Nat :=
  (expand5 ((c >>> 10) &&& 0x1F), expand5 ((c >>> 5) &&& 0x1F),
   expand5 (c &&& 0x1F), 0xFF)

/-! ## Concrete states used by witnesses and counterexamples -/

/-- A concrete core holding a 4-byte ROM with bytes 1, 2, 3, 4. -/
def romWitState : Core := { coreInit none with romData := some ⟨4, fun i => i + 1⟩ }

/-- The effect of a 16-bit store on a byte buffer: low byte at `o`, high
byte at `o + 1`. -/
def store16 (m : Nat → Nat) (o v : Nat) : Nat → Nat :=
  fupd (fupd m o (v % 256)) (o + 1) (v / 256 % 256)

/-- A CPU whose BIOS holds the single word 0xEAFFFFFE at address 0: the
branch `B .` (word-offset −2) about to execute at instruction address 0,
with R15 = 8. -/
def selfLoopState : Core2 where
  paletteRAM := fun _ => 0
  vram := fun _ => 0
  ioRegs := fun _ => 0
  romData := none
  biosData := some ⟨4, fun i => if i = 0 then 0xFE else if i = 3 then 0xEA else 0xFF⟩
  registers := fun i => if i = 15 then 8 else 0
  cpsr := 0x10

/-- A state with DISPCNT = 3 (mode 3, no forced blank). -/
def mode3WitState : Core := { coreInit none with ioRegs := fun i => if i = 0 then 3 else 0 }

/-- A mode-3 state reached through the bus: DISPCNT := 3, then backdrop
palette entry 0 := white (0x7FFF). -/
def mode3CtxState : Option Core :=
  (busWrite16 (coreInit none) 0x04000000 3).bind
    (fun s => busWrite16 s 0x05000000 0x7FFF)

/-- A state whose DMA3 registers hold src 0x06000000, dst 0x06000100,
count 2, control 0, with four marked VRAM bytes. -/
def dmaWitState : Core :=
  { coreInit none with
    ioRegs := fun j =>
      if j = 0xCF then 6 else if j = 0xD1 then 1 else if j = 0xD3 then 6
      else if j = 0xD6 then 2 else 0,
    vram := fun j => if j < 4 then j + 10 else 0 }

/-- A state whose DMA3 registers hold src 0x02000000 (External WRAM),
dst 0x06000000 (VRAM), count 1, control 0, with a nonzero marker byte at
the start of EWRAM and nonzero bytes at the start of VRAM (so the unit
write of the transfer is observable). -/
def dmaCtrState : Core :=
  { coreInit none with
    ioRegs := fun j =>
      if j = 0xCF then 2 else if j = 0xD3 then 6 else if j = 0xD6 then 1 else 0,
    ewram := fun j => if j = 0 then 0xAB else 0,
    vram := fun j => if j < 2 then 0x77 else 0 }

/-! ## C9: loadRom on an empty buffer -/

/-- C9: for every prior core state, calling `loadRom` with an absent or
zero-length ROM buffer throws the empty-ROM error, and the state at the
throw is exactly the prior state — no register, memory region or PPU
field is modified. -/
theorem loadRom_empty_reports_and_preserves (st : Core) (romData : Option Rom)
    (h : romData = none ∨ ∃ r, romData = some r ∧ r.size = 0) :
    loadRom st romData = Except.error st := by
  rcases h with h | ⟨r, hr, hs⟩
  · subst h; rfl
  · subst hr; simp [loadRom, hs]

/-- Witness for C9 at a concrete state and a concrete zero-length ROM. -/
theorem loadRom_empty_reports_and_preserves_witness :
    loadRom (coreInit none) (some ⟨0, fun _ => 0⟩) = Except.error (coreInit none) :=
  loadRom_empty_reports_and_preserves (coreInit none) (some ⟨0, fun _ => 0⟩)
    (Or.inr ⟨⟨0, fun _ => 0⟩, rfl, rfl⟩)

/-! ## C10: 16-bit writes outside every write-handled range -/

/-- C10: a `write16` whose (32-bit) address lies outside the IO, Palette
RAM, VRAM, Internal WRAM and External WRAM write ranges — BIOS, OAM,
cartridge ROM and unmapped space included — falls through every branch:
the state is returned unchanged and no exception is raised. -/
theorem write16_outside_ranges_ignored (st : Core) (a v : Nat)
    (ha : a < 4294967296)
    (h1 : ¬(0x04000000 ≤ a ∧ a < 0x04000400))
    (h2 : ¬(0x05000000 ≤ a ∧ a < 0x05000400))
    (h3 : ¬(0x06000000 ≤ a ∧ a < 0x07000000))
    (h4 : ¬(0x03000000 ≤ a ∧ a < 0x03008000))
    (h5 : ¬(0x02000000 ≤ a ∧ a < 0x02040000)) :
    busWrite16 st a v = some st := by
  rw [busWrite16, write16Body]
  rw [Nat.mod_eq_of_lt ha]
  rw [if_neg h1, if_neg h2, if_neg h3, if_neg h4, if_neg h5]

/-- Witness for C10 at the first OAM address. -/
theorem write16_outside_ranges_ignored_witness :
    busWrite16 (coreInit none) 0x07000000 0x1234 = some (coreInit none) :=
  write16_outside_ranges_ignored (coreInit none) 0x07000000 0x1234
    (by omega) (by omega) (by omega) (by omega) (by omega) (by omega)

/-! ## Basic read/write lemmas -/

lemma busRead16_notBios (st : Core) (a : Nat) (h4 : 0x4000 ≤ a) (ha : a < 4294967296) :
    busRead16 a st = busRead16Tail st a := by
  have hn : ¬ a < 0x4000 := by omega
  rw [busRead16, Nat.mod_eq_of_lt ha]
  rcases st.biosData with _ | bios <;> simp [hn]

lemma busRead32_notBios (st : Core) (a : Nat) (h4 : 0x4000 ≤ a) (ha : a < 4294967296) :
    busRead32 a st = busRead32Tail st a := by
  have hn : ¬ a < 0x4000 := by omega
  rw [busRead32, Nat.mod_eq_of_lt ha]
  rcases st.biosData with _ | bios <;> simp [hn]

lemma vram_upd (st : Core) (m : Nat → Nat) : ({ st with vram := m } : Core).vram = m := rfl

/-! ## C2: cartridge ROM reads, wrap and sentinels -/

/-- C2 (amended): with a ROM present, a ROM-region read wraps via
`offset mod romLength`; when the wrapped access would run past the end of
the image, the read returns the sentinel 0xDEADBEEF (32-bit) or 0xFFFF
(16-bit); with no ROM loaded, ROM-region reads return 0 — not the
sentinels. -/
theorem rom_reads_wrap_and_sentinels (st : Core) (a : Nat)
    (h8 : 0x08000000 ≤ a) (ha : a + 2 < 4294967296) :
    (∀ rom, st.romData = some rom →
      (let off := (a - 0x08000000) % rom.size
      ((off + 4 ≤ rom.size → busRead32 a st =
          some (rom.data off + 256 * rom.data (off + 1) + 65536 * rom.data (off + 2) +
            16777216 * rom.data (off + 3))) ∧
        (rom.size < off + 4 → busRead32 a st = some 0xDEADBEEF) ∧
        (off + 2 ≤ rom.size → busRead16 a st =
          some (rom.data off + 256 * rom.data (off + 1))) ∧
        (rom.size < off + 2 → busRead16 a st = some 0xFFFF)))) ∧
    (st.romData = none → busRead32 a st = some 0 ∧ busRead16 a st = some 0) := by
  have hio : ¬ (0x04000000 ≤ a ∧ a < 0x04000400) := by omega
  have hpr : ¬ (0x05000000 ≤ a ∧ a < 0x05000400) := by omega
  have hvr : ¬ (0x06000000 ≤ a ∧ a < 0x07000000) := by omega
  constructor
  · intro rom hrom
    have e32 : busRead32 a st = some (romRead32 rom (a - 0x08000000)) := by
      rw [busRead32_notBios st a (by omega) (by omega), busRead32Tail, hrom]
      simp [h8]
    have e16 : busRead16 a st = some (romRead16 rom (a - 0x08000000)) := by
      rw [busRead16_notBios st a (by omega) (by omega), busRead16Tail]
      rw [if_neg hio, if_neg hpr, if_neg hvr, hrom]
      simp [h8]
    refine ⟨fun hfit => ?_, fun hmiss => ?_, fun hfit => ?_, fun hmiss => ?_⟩
    · rw [e32, romRead32]; rw [if_pos hfit]
    · rw [e32, romRead32]; rw [if_neg (by omega)]
    · rw [e16, romRead16]; rw [if_pos hfit]
    · rw [e16, romRead16]; rw [if_neg (by omega)]
  · intro hrom
    have e16a : busRead16 a st = some 0 := by
      rw [busRead16_notBios st a (by omega) (by omega), busRead16Tail]
      rw [if_neg hio, if_neg hpr, if_neg hvr, hrom]
    have e16b : busRead16 (a + 2) st = some 0 := by
      rw [busRead16_notBios st (a + 2) (by omega) (by omega), busRead16Tail]
      rw [if_neg (by omega), if_neg (by omega), if_neg (by omega), hrom]
    rw [busRead32_notBios st a (by omega) (by omega), busRead32Tail, hrom]
    rw [e16a, e16b]
    exact ⟨rfl, rfl⟩

/-- Counterexample to C2 as stated: with no ROM loaded, a ROM-region read
returns 0, not the claimed sentinels 0xDEADBEEF / 0xFFFF. -/
theorem rom_reads_no_rom_counterexample :
    busRead32 0x08000000 (coreInit none) ≠ some 0xDEADBEEF ∧
      busRead16 0x08000000 (coreInit none) ≠ some 0xFFFF ∧
      busRead32 0x08000000 (coreInit none) = some 0 ∧
      busRead16 0x08000000 (coreInit none) = some 0 := by
  refine ⟨?_, ?_, rfl, rfl⟩ <;> decide

/-- Witness for C2 at a 4-byte ROM: the 32-bit read at wrapped offset 2
crosses the end and yields 0xDEADBEEF, the 16-bit read there yields the
last two ROM bytes. -/
theorem rom_reads_wrap_and_sentinels_witness :
    busRead32 0x08000002 romWitState = some 0xDEADBEEF ∧
      busRead16 0x08000002 romWitState = some 1027 := by
  obtain ⟨c1, c2, c3, c4⟩ :=
    (rom_reads_wrap_and_sentinels romWitState 0x08000002 (by omega) (by omega)).1
      ⟨4, fun i => i + 1⟩ rfl
  refine ⟨c2 (by norm_num), ?_⟩
  have h := c3 (by norm_num)
  simpa using h

/-! ## C1: write16 / read16 round trip -/

lemma store16_at (m : Nat → Nat) (o v : Nat) : store16 m o v o = v % 256 := by
  unfold store16 fupd
  rw [if_neg (by omega), if_pos rfl]

lemma store16_at1 (m : Nat → Nat) (o v : Nat) : store16 m o v (o + 1) = v / 256 % 256 := by
  unfold store16 fupd
  rw [if_pos rfl]

lemma store16_other (m : Nat → Nat) (o v j : Nat) (h0 : j ≠ o) (h1 : j ≠ o + 1) :
    store16 m o v j = m j := by
  unfold store16 fupd
  rw [if_neg h1, if_neg h0]

/-- The VRAM branch of `write16Body`, for any observer. -/
lemma write16Body_vram (hiow : Core → Nat → Nat → Option Core) (st : Core) (a v : Nat)
    (h6 : 0x06000000 ≤ a) (h7 : a < 0x07000000) (hv : v < 65536)
    (hfit : (a - 0x06000000) % 0x18000 + 2 ≤ 0x18000) :
    write16Body hiow st a v =
      some { st with vram := store16 st.vram ((a - 0x06000000) % 0x18000) v } := by
  rw [write16Body, Nat.mod_eq_of_lt (show a < 4294967296 by omega), Nat.mod_eq_of_lt hv]
  rw [if_neg (by omega), if_neg (by omega), if_pos ⟨h6, h7⟩]
  rw [dvSet16, if_pos hfit]
  rfl

/-- The PRAM branch of `write16Body`, for any observer. -/
lemma write16Body_pram (hiow : Core → Nat → Nat → Option Core) (st : Core) (a v : Nat)
    (h5 : 0x05000000 ≤ a) (h5b : a < 0x05000400) (hv : v < 65536)
    (hfit : (a - 0x05000000) % 0x400 + 2 ≤ 0x400) :
    write16Body hiow st a v =
      some (if (a - 0x05000000) % 0x400 % 2 = 0 then
          convertPaletteColor
            { st with paletteRAM := store16 st.paletteRAM ((a - 0x05000000) % 0x400) v }
            ((a - 0x05000000) % 0x400 / 2) v
        else { st with paletteRAM := store16 st.paletteRAM ((a - 0x05000000) % 0x400) v }) := by
  rw [write16Body, Nat.mod_eq_of_lt (show a < 4294967296 by omega), Nat.mod_eq_of_lt hv]
  rw [if_neg (by omega), if_pos ⟨h5, h5b⟩]
  rw [dvSet16, if_pos hfit]
  rfl

lemma roundtrip_vram_aux (st : Core) (a v : Nat)
    (h6 : 0x06000000 ≤ a) (h7 : a < 0x07000000) (hv : v < 65536)
    (hfit : (a - 0x06000000) % 0x18000 + 2 ≤ 0x18000) :
    w16r16 st a v = some v := by
  set o := (a - 0x06000000) % 0x18000 with ho
  have hw : busWrite16 st a v = some { st with vram := store16 st.vram o v } := by
    rw [busWrite16]
    exact write16Body_vram _ st a v h6 h7 hv hfit
  rw [w16r16, hw, Option.some_bind]
  rw [busRead16_notBios _ _ (by omega) (by omega), busRead16Tail]
  rw [if_neg (by omega), if_neg (by omega), if_pos ⟨h6, h7⟩]
  rw [dvGet16, vram_upd]
  rw [if_pos hfit]
  rw [store16_at, store16_at1]
  refine congrArg some ?_
  omega

lemma roundtrip_pram_aux (st : Core) (a v : Nat)
    (h5 : 0x05000000 ≤ a) (h5b : a < 0x05000400) (hv : v < 65536)
    (hfit : (a - 0x05000000) % 0x400 + 2 ≤ 0x400) :
    w16r16 st a v = some v := by
  set o := (a - 0x05000000) % 0x400 with ho
  set stW : Core :=
    if o % 2 = 0 then
      convertPaletteColor { st with paletteRAM := store16 st.paletteRAM o v } (o / 2) v
    else { st with paletteRAM := store16 st.paletteRAM o v } with hstW
  have hw : busWrite16 st a v = some stW := by
    rw [busWrite16]
    exact write16Body_pram _ st a v h5 h5b hv hfit
  have hpal : stW.paletteRAM = store16 st.paletteRAM o v := by
    rw [hstW]
    by_cases h : o % 2 = 0
    · rw [if_pos h]; rfl
    · rw [if_neg h]
  rw [w16r16, hw, Option.some_bind]
  rw [busRead16_notBios _ _ (by omega) (by omega), busRead16Tail]
  rw [if_neg (by omega), if_pos ⟨h5, h5b⟩]
  rw [dvGet16, hpal]
  rw [if_pos hfit]
  rw [store16_at, store16_at1]
  refine congrArg some ?_
  omega

/-- C1 (amended): a 16-bit write followed by a 16-bit read of the same
address returns the written value for every VRAM-range and Palette-RAM-
range address whose wrapped offset admits the full 2-byte access (at the
very last byte of a region the unchecked `DataView` access throws).  For
External-WRAM and Internal-WRAM addresses the write is stored but
`read16` has no read path for those regions and returns 0, so the
round-trip property fails there. -/
theorem write16_read16_roundtrip (st : Core) (a v : Nat) (hv : v < 65536)
    (hrange : (0x06000000 ≤ a ∧ a < 0x07000000 ∧
        (a - 0x06000000) % 0x18000 + 2 ≤ 0x18000) ∨
      (0x05000000 ≤ a ∧ a < 0x05000400 ∧ (a - 0x05000000) % 0x400 + 2 ≤ 0x400)) :
    w16r16 st a v = some v := by
  rcases hrange with ⟨h1, h2, h3⟩ | ⟨h1, h2, h3⟩
  · exact roundtrip_vram_aux st a v h1 h2 hv h3
  · exact roundtrip_pram_aux st a v h1 h2 hv h3

/-- Counterexample to C1 as stated: at the first External-WRAM address
the written halfword reads back as 0, because `read16` has no EWRAM
path. -/
theorem write16_read16_roundtrip_counterexample :
    w16r16 (coreInit none) 0x02000000 1 = some 0 ∧
      w16r16 (coreInit none) 0x02000000 1 ≠ some 1 := by
  constructor
  · rfl
  · decide

/-- Witness for C1 at a concrete VRAM address and value. -/
theorem write16_read16_roundtrip_witness :
    w16r16 (coreInit none) 0x06000000 0xABCD = some 0xABCD :=
  write16_read16_roundtrip (coreInit none) 0x06000000 0xABCD (by omega)
    (Or.inl (by norm_num))

/-! ## Further fupd lemmas -/

lemma fupd_same (m : Nat → Nat) (i v : Nat) : fupd m i v i = v := by
  unfold fupd; rw [if_pos rfl]

lemma fupd_other (m : Nat → Nat) (i v j : Nat) (h : j ≠ i) : fupd m i v j = m j := by
  unfold fupd; rw [if_neg h]

/-! ## C8: the branch instruction -/

/-- C8: for a fetched word that decodes as a branch (bits 27–25 = 101)
with condition AL — the only condition the interpreter executes — the new
R15 is `(instruction_address + 8) + offset` (as a 32-bit store), where
the offset is the 24-bit field shifted left by 2 and sign-extended, and
R15 held `instruction_address + 8` before execution. -/
theorem branch_new_r15 (st : Core2) (A instr : Nat)
    (hpc : st.registers 15 = A + 8)
    (hfetch : bus2Read32 st (A : Int) = instr)
    (hbr : (instr >>> 25) &&& 0b111 = 0b101)
    (hcond : (instr >>> 28) &&& 0xF = 0b1110) :
    (executeNextInstruction2 st).map (fun s => s.registers 15) =
      some ((((A + 8 : Nat) : Int) + armBranchOffset instr) % 4294967296).toNat := by
  have haddr : ((A + 8 : Nat) : Int) - 8 = (A : Int) := by push_cast; ring
  simp only [executeNextInstruction2, hpc, haddr, hfetch, hbr, hcond]
  simp only [reduceIte, Option.map_some]
  refine congrArg some ?_
  show fupd (fupd st.registers 15 ((A + 8 + 4) % 4294967296)) 15
    ((((A + 8 : Nat) : Int) + armBranchOffset instr) % 4294967296).toNat 15 = _
  rw [fupd_same]

/-- Witness for C8: the self-loop branch with word-offset −2 at address 0
sets the PC register to 0, confirming the sign extension. -/
theorem branch_new_r15_witness :
    (executeNextInstruction2 selfLoopState).map (fun s => s.registers 15) = some 0 := by
  rw [branch_new_r15 selfLoopState 0 0xEAFFFFFE rfl (by decide) (by decide) (by decide)]
  decide

/-! ## Projection preservation: the renderer only writes `frameData` (and
`flushRenderQueue` additionally `lastRenderedLine`), so every other field
of `Core` passes through unchanged. -/

lemma foldl_proj {γ : Type} (g : Core → γ) {β : Type} (l : List β)
    (f : Core → β → Core) (hf : ∀ s b, g (f s b) = g s) (st : Core) :
    g (l.foldl f st) = g st := by
  induction l generalizing st with
  | nil => rfl
  | cons b bs ih => rw [List.foldl_cons, ih, hf]

lemma fdWrite4_proj {γ : Type} (g : Core → γ)
    (hfd : ∀ (s : Core) (i v : Nat), g (fdWrite s i v) = g s)
    (s : Core) (i r gg b a : Nat) : g (fdWrite4 s i r gg b a) = g s := by
  unfold fdWrite4
  rw [hfd, hfd, hfd, hfd]

lemma bgPixelStep_proj {γ : Type} (g : Core → γ)
    (hfd : ∀ (s : Core) (i v : Nat), g (fdWrite s i v) = g s)
    (p1 p2 p3 p4 p5 p6 p7 p8 p9 : Nat) (s : Core) (px : Nat) :
    g (bgPixelStep p1 p2 p3 p4 p5 p6 p7 p8 p9 s px) = g s := by
  simp only [bgPixelStep, apply_ite g, fdWrite4_proj g hfd, ite_self]

lemma bgTileStep_proj {γ : Type} (g : Core → γ)
    (hfd : ∀ (s : Core) (i v : Nat), g (fdWrite s i v) = g s)
    (p1 p2 p3 p4 p5 p6 : Nat) (s : Core) (tx : Nat) :
    g (bgTileStep p1 p2 p3 p4 p5 p6 s tx) = g s := by
  have hfold : ∀ (a b c d e f h i j : Nat) (st : Core),
      g ((List.range 8).foldl (bgPixelStep a b c d e f h i j) st) = g st := by
    intro a b c d e f h i j st
    exact foldl_proj g _ _ (fun s2 px => bgPixelStep_proj g hfd a b c d e f h i j s2 px) st
  simp only [bgTileStep, apply_ite g, hfold, ite_self]

lemma renderBGScanLine_proj {γ : Type} (g : Core → γ)
    (hfd : ∀ (s : Core) (i v : Nat), g (fdWrite s i v) = g s)
    (st : Core) (bg line : Nat) : g (renderBGScanLine st bg line) = g st := by
  rw [renderBGScanLine]
  exact foldl_proj g _ _ (fun s tx => bgTileStep_proj g hfd _ _ _ _ _ _ s tx) st

lemma fillBackdropLine_proj {γ : Type} (g : Core → γ)
    (hfd : ∀ (s : Core) (i v : Nat), g (fdWrite s i v) = g s)
    (st : Core) (line : Nat) : g (fillBackdropLine st line) = g st := by
  rw [fillBackdropLine]
  refine foldl_proj g _ _ (fun s t => ?_) st
  rw [backdropStep]
  exact fdWrite4_proj g hfd s _ _ _ _ _

lemma renderMode3Line_proj {γ : Type} (g : Core → γ)
    (hfd : ∀ (s : Core) (i v : Nat), g (fdWrite s i v) = g s)
    (st : Core) (line : Nat) : g (renderMode3Line st line) = g st := by
  rw [renderMode3Line]
  refine foldl_proj g _ _ (fun s x => ?_) st
  simp only [mode3Step, apply_ite g, fdWrite4_proj g hfd, ite_self]

lemma renderScanLine_proj {γ : Type} (g : Core → γ)
    (hfd : ∀ (s : Core) (i v : Nat), g (fdWrite s i v) = g s)
    (st : Core) (line : Nat) : g (renderScanLine st line) = g st := by
  have hb : ∀ (s : Core) (l : Nat), g (fillBackdropLine s l) = g s :=
    fun s l => fillBackdropLine_proj g hfd s l
  have hm : ∀ (s : Core) (l : Nat), g (renderMode3Line s l) = g s :=
    fun s l => renderMode3Line_proj g hfd s l
  have hd : ∀ (d l : Nat) (s : Core), g (([3, 2, 1, 0] : List Nat).foldl (bgDispatchStep d l) s) = g s := by
    intro d l s
    refine foldl_proj g _ _ (fun s2 bg => ?_) s
    rw [bgDispatchStep]
    split
    · exact renderBGScanLine_proj g hfd s2 bg l
    · rfl
  simp only [renderScanLine, apply_ite g, hd, hm, hb, ite_self]

lemma flushLoop_proj {γ : Type} (g : Core → γ)
    (hfd : ∀ (s : Core) (i v : Nat), g (fdWrite s i v) = g s)
    (fuel line cur : Nat) (st : Core) : g (flushLoop fuel line cur st) = g st := by
  induction fuel generalizing line st with
  | zero => rfl
  | succ n ih =>
    rw [flushLoop]
    simp only [renderIfVisible, apply_ite g, ih, renderScanLine_proj g hfd, ite_self]

lemma flushRenderQueue_proj {γ : Type} (g : Core → γ)
    (hfd : ∀ (s : Core) (i v : Nat), g (fdWrite s i v) = g s)
    (hlast : ∀ (s : Core) (n : Nat), g { s with lastRenderedLine := n } = g s)
    (st : Core) : g (flushRenderQueue st) = g st := by
  rw [flushRenderQueue]
  split
  · rfl
  · show g { flushLoop 228 st.lastRenderedLine st.currentScanline st with
      lastRenderedLine := st.currentScanline } = g st
    rw [hlast, flushLoop_proj g hfd]

/-! ## Bit-0 arithmetic and the PPU scanline step -/

lemma lor_one_mod_two (x : Nat) : (x ||| 1) % 2 = 1 := by
  rw [← Nat.and_one_is_mod, Nat.and_distrib_right]
  rcases Nat.mod_two_eq_zero_or_one x with h | h <;>
    simp [Nat.and_one_is_mod, h]

lemma lor_two_mod_two (x : Nat) : (x ||| 2) % 2 = x % 2 := by
  rw [← Nat.and_one_is_mod, Nat.and_distrib_right]
  simp [Nat.and_one_is_mod]

lemma lor_four_mod_two (x : Nat) : (x ||| 4) % 2 = x % 2 := by
  rw [← Nat.and_one_is_mod, Nat.and_distrib_right]
  simp [Nat.and_one_is_mod]

lemma and_fffd_mod_two (x : Nat) : (x &&& 0xFFFD) % 2 = x % 2 := by
  rw [← Nat.and_one_is_mod, Nat.and_assoc]
  norm_num [Nat.and_one_is_mod]

lemma and_fffe_mod_two (x : Nat) : (x &&& 0xFFFE) % 2 = 0 := by
  rw [← Nat.and_one_is_mod, Nat.and_assoc]
  norm_num

lemma and_fffb_mod_two (x : Nat) : (x &&& 0xFFFB) % 2 = x % 2 := by
  rw [← Nat.and_one_is_mod, Nat.and_assoc]
  norm_num [Nat.and_one_is_mod]

lemma flush_scanline (st : Core) : (flushRenderQueue st).currentScanline = st.currentScanline :=
  flushRenderQueue_proj Core.currentScanline (fun _ _ _ => rfl) (fun _ _ => rfl) st

lemma flush_cycles (st : Core) : (flushRenderQueue st).cyclesToNextHBlank = st.cyclesToNextHBlank :=
  flushRenderQueue_proj Core.cyclesToNextHBlank (fun _ _ _ => rfl) (fun _ _ => rfl) st

lemma flush_ioRegs (st : Core) : (flushRenderQueue st).ioRegs = st.ioRegs :=
  flushRenderQueue_proj Core.ioRegs (fun _ _ _ => rfl) (fun _ _ => rfl) st

lemma flush_vram (st : Core) : (flushRenderQueue st).vram = st.vram :=
  flushRenderQueue_proj Core.vram (fun _ _ _ => rfl) (fun _ _ => rfl) st

lemma flush_romData (st : Core) : (flushRenderQueue st).romData = st.romData :=
  flushRenderQueue_proj Core.romData (fun _ _ _ => rfl) (fun _ _ => rfl) st

lemma flush_biosData (st : Core) : (flushRenderQueue st).biosData = st.biosData :=
  flushRenderQueue_proj Core.biosData (fun _ _ _ => rfl) (fun _ _ => rfl) st

lemma flush_ewram (st : Core) : (flushRenderQueue st).ewram = st.ewram :=
  flushRenderQueue_proj Core.ewram (fun _ _ _ => rfl) (fun _ _ => rfl) st

lemma flush_iwram (st : Core) : (flushRenderQueue st).iwram = st.iwram :=
  flushRenderQueue_proj Core.iwram (fun _ _ _ => rfl) (fun _ _ => rfl) st

lemma flush_paletteRAM (st : Core) : (flushRenderQueue st).paletteRAM = st.paletteRAM :=
  flushRenderQueue_proj Core.paletteRAM (fun _ _ _ => rfl) (fun _ _ => rfl) st

lemma flush_paletteRGB (st : Core) : (flushRenderQueue st).paletteRGB = st.paletteRGB :=
  flushRenderQueue_proj Core.paletteRGB (fun _ _ _ => rfl) (fun _ _ => rfl) st

lemma ioSet16_scanline (st : Core) (o v : Nat) :
    (ioSet16 st o v).currentScanline = st.currentScanline := rfl

lemma ioSet16_cycles (st : Core) (o v : Nat) :
    (ioSet16 st o v).cyclesToNextHBlank = st.cyclesToNextHBlank := rfl

lemma scanTail_scanline (st : Core) (d s : Nat) :
    (scanTail st d s).currentScanline = st.currentScanline := rfl

lemma scanTail_cycles (st : Core) (d s : Nat) :
    (scanTail st d s).cyclesToNextHBlank = st.cyclesToNextHBlank := rfl

lemma scanTail_vcount (st : Core) (d s : Nat) :
    ioGet16 (scanTail st d s) 0x006 = s % 65536 := by
  simp only [scanTail, ioGet16, ioSet16, fupd]
  norm_num
  omega

lemma scanTail_dispstat_mod2 (st : Core) (d s : Nat) :
    ioGet16 (scanTail st d s) 0x004 % 2 = d % 2 := by
  simp only [scanTail, ioGet16, ioSet16, fupd]
  norm_num
  split
  · rw [show ∀ x : Nat, x % 256 + 256 * (x / 256 % 256) = x % 65536 from fun x => by omega,
      Nat.mod_mod_of_dvd _ (by norm_num), lor_four_mod_two]
  · rw [show ∀ x : Nat, x % 256 + 256 * (x / 256 % 256) = x % 65536 from fun x => by omega,
      Nat.mod_mod_of_dvd _ (by norm_num), and_fffb_mod_two]

lemma scanStep_scanline (st : Core) :
    (scanStep st).currentScanline =
      if st.currentScanline + 1 ≥ 228 then 0 else st.currentScanline + 1 := by
  rw [scanStep]
  dsimp only
  simp only [apply_ite Core.currentScanline, ioSet16_scanline, ite_self, scanTail_scanline,
    flush_scanline]
  repeat' split
  all_goals omega

lemma scanStep_cycles (st : Core) :
    (scanStep st).cyclesToNextHBlank = st.cyclesToNextHBlank + 1232 := by
  rw [scanStep]
  dsimp only
  simp only [apply_ite Core.currentScanline, apply_ite Core.cyclesToNextHBlank, ioSet16_scanline,
    ioSet16_cycles, scanTail_cycles, flush_cycles, ite_self]

lemma scanStep_vcount (st : Core) :
    ioGet16 (scanStep st) 0x006 =
      if st.currentScanline + 1 ≥ 228 then 0 else st.currentScanline + 1 := by
  rw [scanStep]
  dsimp only
  simp only [apply_ite (fun c : Core => ioGet16 c 0x006), scanTail_vcount,
    apply_ite Core.currentScanline, ioSet16_scanline, ite_self]
  repeat' split
  all_goals omega

lemma scanStep_dispstat_mod2 (st : Core) :
    ioGet16 (scanStep st) 0x004 % 2 =
      if st.currentScanline + 1 = 160 then 1
      else if st.currentScanline + 1 ≥ 228 then 0
      else ioGet16 st 0x004 % 2 := by
  rw [scanStep]
  dsimp only
  simp only [apply_ite (fun c : Core => ioGet16 c 0x004 % 2), scanTail_dispstat_mod2,
    apply_ite Core.currentScanline, ioSet16_scanline, ite_self]
  simp only [lor_one_mod_two, and_fffe_mod_two, and_fffd_mod_two,
    apply_ite (fun x : Nat => x % 2), lor_two_mod_two, ite_self]

lemma scanStep_VbInv (st : Core) (h : VbInv st) : VbInv (scanStep st) := by
  obtain ⟨hs, hb⟩ := h
  refine ⟨?_, ?_⟩
  · rw [scanStep_scanline]
    split <;> omega
  · rw [scanStep_dispstat_mod2, scanStep_scanline]
    repeat' split
    all_goals omega

lemma ppuLoop_VbInv : ∀ (fuel : Nat) (st : Core), VbInv st → VbInv (ppuLoop fuel st)
  | 0, _, h => h
  | fuel + 1, st, h => by
    rw [ppuLoop]
    split
    · exact ppuLoop_VbInv fuel _ (scanStep_VbInv st h)
    · exact h

/-- C3: DISPSTAT bit 0 (the V-blank flag) is set iff `currentScanline` is
in [160,227], in every PPU state observable after an `updatePPU` advance:
the property holds in the reset state and, from any state satisfying it,
it still holds after `updatePPU` with any cycle argument (so it holds in
every state reachable through advance calls). -/
theorem vblank_flag_iff_scanline (bios : Option Rom) (st : Core) (cycles : Int)
    (h : VbInv st) : VbInv (coreInit bios) ∧ VbInv (updatePPU st cycles) := by
  refine ⟨⟨by norm_num [coreInit], by norm_num [coreInit, ioGet16]⟩, ?_⟩
  rw [updatePPU]
  exact ppuLoop_VbInv 300 _ ⟨h.1, h.2⟩

lemma ppuLoop_succ (fuel : Nat) (st : Core) :
    ppuLoop (fuel + 1) st =
      if st.cyclesToNextHBlank ≤ 0 then ppuLoop fuel (scanStep st) else st := rfl

lemma updatePPU_one (st : Core) (hc : st.cyclesToNextHBlank = 1232) :
    updatePPU st 1232 = scanStep { st with cyclesToNextHBlank := 0 } := by
  rw [updatePPU, hc]
  norm_num
  rw [show (300 : Nat) = 299 + 1 from rfl, ppuLoop_succ, if_pos (by norm_num)]
  have h2 : ¬((scanStep { st with cyclesToNextHBlank := (0 : Int) }).cyclesToNextHBlank ≤ 0) := by
    rw [scanStep_cycles]
    norm_num
  rw [show (299 : Nat) = 298 + 1 from rfl, ppuLoop_succ, if_neg h2]

/-- C4: from any state with a full H-cycle budget and a scanline in
0..227, one `updatePPU` advance of `H_CYCLES = 1232` increments
`currentScanline` by exactly one, wrapping 227 to 0 (so repeated advances
cycle through 0..227, wrapping every 228 lines), VCOUNT then equals
`currentScanline`, and both budget and range conditions are
re-established for the next advance. -/
theorem scanline_increment_vcount (st : Core)
    (hc : st.cyclesToNextHBlank = 1232) (hs : st.currentScanline ≤ 227) :
    (updatePPU st 1232).currentScanline = (st.currentScanline + 1) % 228 ∧
    ioGet16 (updatePPU st 1232) 0x006 = (updatePPU st 1232).currentScanline ∧
    (updatePPU st 1232).cyclesToNextHBlank = 1232 ∧
    (updatePPU st 1232).currentScanline ≤ 227 := by
  rw [updatePPU_one st hc, scanStep_scanline, scanStep_vcount, scanStep_cycles]
  dsimp only
  refine ⟨by split <;> omega, rfl, by norm_num, by split <;> omega⟩

/-- Witness for C3 at the reset state. -/
theorem vblank_flag_iff_scanline_witness :
    VbInv (coreInit none) ∧ (VbInv (coreInit none) ∧ VbInv (updatePPU (coreInit none) 1232)) :=
  ⟨by decide, vblank_flag_iff_scanline none (coreInit none) 1232 (by decide)⟩

/-- Witness for C4 at the reset state. -/
theorem scanline_increment_vcount_witness :
    ((coreInit none).cyclesToNextHBlank = 1232 ∧ (coreInit none).currentScanline ≤ 227) ∧
    ((updatePPU (coreInit none) 1232).currentScanline = ((coreInit none).currentScanline + 1) % 228 ∧
     ioGet16 (updatePPU (coreInit none) 1232) 0x006 = (updatePPU (coreInit none) 1232).currentScanline ∧
     (updatePPU (coreInit none) 1232).cyclesToNextHBlank = 1232 ∧
     (updatePPU (coreInit none) 1232).currentScanline ≤ 227) :=
  ⟨⟨by decide, by decide⟩, scanline_increment_vcount (coreInit none) (by decide) (by decide)⟩

/-! ## C6: the flush interval -/

lemma flushLoop_spec : ∀ (n line cur : Nat) (st : Core), line ≤ 227 → cur ≤ 227 →
    (cur + 228 - line) % 228 ≤ n →
    flushLoop n line cur st =
      ((List.range ((cur + 228 - line) % 228)).map (fun i => (line + i) % 228)).foldl
        renderIfVisible st := by
  intro n
  induction n with
  | zero =>
    intro line cur st hl hc hd
    have h0 : (cur + 228 - line) % 228 = 0 := by omega
    rw [h0]
    simp only [List.range_zero, List.map_nil, List.foldl_nil]
    rfl
  | succ n ih =>
    intro line cur st hl hc hd
    by_cases he : line = cur
    · have h0 : (cur + 228 - line) % 228 = 0 := by omega
      rw [h0]
      simp only [List.range_zero, List.map_nil, List.foldl_nil]
      rw [flushLoop, if_pos he]
    · obtain ⟨k, hk⟩ : ∃ k, (cur + 228 - line) % 228 = k + 1 :=
        ⟨(cur + 228 - line) % 228 - 1, by omega⟩
      rw [flushLoop, if_neg he]
      have hline1 : (if line + 1 ≥ 228 then 0 else line + 1) = (line + 1) % 228 := by
        split <;> omega
      rw [hline1, ih ((line + 1) % 228) cur _ (by omega) hc (by omega)]
      have hd2 : (cur + 228 - (line + 1) % 228) % 228 = k := by omega
      rw [hd2, hk, List.range_succ_eq_map, List.map_cons, List.foldl_cons, List.map_map]
      have hfun : ((fun i => (line + i) % 228) ∘ Nat.succ) =
          (fun i => ((line + 1) % 228 + i) % 228) := by
        funext i
        simp only [Function.comp]
        omega
      rw [hfun]
      have hbase : (line + 0) % 228 = line := by omega
      rw [hbase]

/-- C6 (corrected): `flushRenderQueue` renders exactly the scanlines of
the wrapping interval from `lastRenderedLine` (INCLUSIVE) up to
`currentScanline` (EXCLUSIVE) — not the spec's "strictly after
`lastRenderedLine` up to and including `currentScanline`" — calling
`renderScanLine` for each such line that is visible (< 160), in visit
order, and afterwards `lastRenderedLine` equals `currentScanline`. -/
theorem flush_renders_half_open (st : Core)
    (hl : st.lastRenderedLine ≤ 227) (hc : st.currentScanline ≤ 227) :
    flushRenderQueue st =
      { (linesToRender st.lastRenderedLine st.currentScanline).foldl renderIfVisible st with
        lastRenderedLine := st.currentScanline } := by
  by_cases h : st.lastRenderedLine = st.currentScanline
  · rw [flushRenderQueue, if_pos h, linesToRender]
    have h0 : (st.currentScanline + 228 - st.lastRenderedLine) % 228 = 0 := by omega
    rw [h0]
    simp only [List.range_zero, List.map_nil, List.foldl_nil]
    nth_rewrite 2 [← h]
    rfl
  · rw [flushRenderQueue, if_neg h]
    dsimp only
    rw [flushLoop_spec 228 st.lastRenderedLine st.currentScanline st hl hc (by omega),
      linesToRender]

/-- C6 counterexample to the spec's interval: with `lastRenderedLine = 0`
and `currentScanline = 1`, the flush renders line 0 (its backdrop alpha
0xFF lands in the frame) and does not render line 1 (its pixels stay 0);
the spec's half-open interval (0,1] predicts exactly the opposite. -/
theorem flush_renders_counterexample :
    (flushRenderQueue { coreInit none with currentScanline := 1 }).frameData 3 = 255 ∧
    (flushRenderQueue { coreInit none with currentScanline := 1 }).frameData (960 + 3) = 0 := by
  constructor <;> decide

/-- Witness for C6 at a state with two pending lines. -/
theorem flush_renders_half_open_witness :
    ({ coreInit none with currentScanline := 2 } : Core).lastRenderedLine ≤ 227 ∧
    ({ coreInit none with currentScanline := 2 } : Core).currentScanline ≤ 227 ∧
    flushRenderQueue { coreInit none with currentScanline := 2 } =
      { (linesToRender ({ coreInit none with currentScanline := 2 } : Core).lastRenderedLine
            ({ coreInit none with currentScanline := 2 } : Core).currentScanline).foldl
          renderIfVisible { coreInit none with currentScanline := 2 } with
        lastRenderedLine := ({ coreInit none with currentScanline := 2 } : Core).currentScanline } :=
  ⟨by decide, by decide, flush_renders_half_open _ (by decide) (by decide)⟩

/-! ## C5: mode-3 pixel rendering -/

lemma fdWrite_frameData_other (s : Core) (i v j : Nat) (h : j ≠ i) :
    (fdWrite s i v).frameData j = s.frameData j := by
  rw [fdWrite]
  split
  · show fupd s.frameData i v j = s.frameData j
    rw [fupd_other _ _ _ _ h]
  · rfl

lemma fdWrite_frameData_same (s : Core) (i v : Nat) (h : i < 153600) :
    (fdWrite s i v).frameData i = v := by
  rw [fdWrite]
  rw [if_pos h]
  show fupd s.frameData i v i = v
  rw [fupd_same]

lemma fdWrite4_read (s : Core) (i r g b a j : Nat) (hi : i + 3 < 153600) :
    (fdWrite4 s i r g b a).frameData j =
      if j = i then r else if j = i + 1 then g else if j = i + 2 then b
      else if j = i + 3 then a else s.frameData j := by
  by_cases h3 : j = i + 3
  · rw [fdWrite4, h3, fdWrite_frameData_same _ _ _ (by omega)]
    rw [if_neg (by omega), if_neg (by omega), if_neg (by omega), if_pos rfl]
  by_cases h2 : j = i + 2
  · rw [fdWrite4, fdWrite_frameData_other _ _ _ _ h3, h2,
      fdWrite_frameData_same _ _ _ (by omega)]
    rw [if_neg (by omega), if_neg (by omega), if_pos rfl]
  by_cases h1 : j = i + 1
  · rw [fdWrite4, fdWrite_frameData_other _ _ _ _ h3, fdWrite_frameData_other _ _ _ _ h2, h1,
      fdWrite_frameData_same _ _ _ (by omega)]
    rw [if_neg (by omega), if_pos rfl]
  by_cases h0 : j = i
  · rw [fdWrite4, fdWrite_frameData_other _ _ _ _ h3, fdWrite_frameData_other _ _ _ _ h2,
      fdWrite_frameData_other _ _ _ _ h1, h0, fdWrite_frameData_same _ _ _ (by omega)]
    rw [if_pos rfl]
  · rw [fdWrite4, fdWrite_frameData_other _ _ _ _ h3, fdWrite_frameData_other _ _ _ _ h2,
      fdWrite_frameData_other _ _ _ _ h1, fdWrite_frameData_other _ _ _ _ h0]
    rw [if_neg h0, if_neg h1, if_neg h2, if_neg h3]

lemma pixelAt_fdWrite4_same (s : Core) (x y r g b a : Nat) (hx : x < 240) (hy : y < 160) :
    pixelAt (fdWrite4 s ((y * 240 + x) * 4) r g b a) x y = (r, g, b, a) := by
  have hi : (y * 240 + x) * 4 + 3 < 153600 := by omega
  rw [pixelAt]
  rw [fdWrite4_read _ _ _ _ _ _ _ hi, fdWrite4_read _ _ _ _ _ _ _ hi,
    fdWrite4_read _ _ _ _ _ _ _ hi, fdWrite4_read _ _ _ _ _ _ _ hi]
  rw [if_pos rfl]
  rw [if_neg (by omega), if_pos rfl]
  rw [if_neg (by omega), if_neg (by omega), if_pos rfl]
  rw [if_neg (by omega), if_neg (by omega), if_neg (by omega), if_pos rfl]

lemma pixelAt_fdWrite4_other (s : Core) (x y z r g b a : Nat)
    (hxz : x ≠ z) (hi : (y * 240 + z) * 4 + 3 < 153600) :
    pixelAt (fdWrite4 s ((y * 240 + z) * 4) r g b a) x y = pixelAt s x y := by
  rw [pixelAt, pixelAt]
  rw [fdWrite4_read _ _ _ _ _ _ _ hi, fdWrite4_read _ _ _ _ _ _ _ hi,
    fdWrite4_read _ _ _ _ _ _ _ hi, fdWrite4_read _ _ _ _ _ _ _ hi]
  rw [if_neg (by omega), if_neg (by omega), if_neg (by omega), if_neg (by omega)]
  rw [if_neg (by omega), if_neg (by omega), if_neg (by omega), if_neg (by omega)]
  rw [if_neg (by omega), if_neg (by omega), if_neg (by omega), if_neg (by omega)]
  rw [if_neg (by omega), if_neg (by omega), if_neg (by omega), if_neg (by omega)]

lemma mode3Step_pixel_other (y x z : Nat) (s : Core)
    (hxz : x ≠ z) (hz : z < 240) (hy : y < 160) :
    pixelAt (mode3Step y s z) x y = pixelAt s x y := by
  rw [mode3Step]
  dsimp only
  split
  · rfl
  · split
    · rfl
    · exact pixelAt_fdWrite4_other _ _ _ _ _ _ _ _ hxz (by omega)

lemma mode3Step_hit (y x : Nat) (s : Core) (c : Nat)
    (hvc : vram16 s ((y * 240 + x) * 2) = c) (hoff : (y * 240 + x) * 2 < 0x18000)
    (hc0 : c ≠ 0) :
    mode3Step y s x =
      fdWrite4 s ((y * 240 + x) * 4) (expand5 ((c >>> 10) &&& 0x1F))
        (expand5 ((c >>> 5) &&& 0x1F)) (expand5 (c &&& 0x1F)) 0xFF := by
  rw [mode3Step]
  dsimp only
  rw [if_neg (by omega), hvc, if_neg hc0]

lemma mode3_fold_vram (y : Nat) : ∀ (l : List Nat) (s : Core),
    (l.foldl (mode3Step y) s).vram = s.vram := by
  intro l s
  refine foldl_proj Core.vram _ _ (fun s2 z => ?_) s
  simp only [mode3Step, apply_ite Core.vram, fdWrite4_proj Core.vram (fun _ _ _ => rfl), ite_self]

lemma mode3_fold_pixel_other (y x : Nat) (hy : y < 160) :
    ∀ (l : List Nat), (∀ z ∈ l, x < z ∧ z < 240) → ∀ (s : Core),
    pixelAt (l.foldl (mode3Step y) s) x y = pixelAt s x y := by
  intro l
  induction l with
  | nil => intro _ s; rfl
  | cons z zs ih =>
    intro hz s
    rw [List.foldl_cons, ih (fun w hw => hz w (List.mem_cons_of_mem z hw))]
    exact mode3Step_pixel_other y x z s (by have := hz z (List.mem_cons_self z zs); omega)
      (hz z (List.mem_cons_self z zs)).2 hy

lemma renderScanLine_mode3_pixel (s : Core) (x y c : Nat)
    (hx : x < 240) (hy : y < 160)
    (hmode : ioGet16 s 0x000 &&& 0x7 = 3) (hblank : ioGet16 s 0x000 &&& 0x80 = 0)
    (hvc : vram16 s ((y * 240 + x) * 2) = c) (hc0 : c ≠ 0) :
    pixelAt (renderScanLine s y) x y = rgb888 c := by
  rw [renderScanLine]
  dsimp only
  rw [hblank]
  rw [if_neg (by omega), hmode, if_neg (by omega), if_pos rfl, renderMode3Line]
  have hsplit : List.range 240 =
      List.range (x + 1) ++ List.map (fun i => x + 1 + i) (List.range (239 - x)) := by
    have h := List.range_add (x + 1) (239 - x)
    rw [show x + 1 + (239 - x) = 240 from by omega] at h
    exact h
  rw [hsplit, List.foldl_append, List.range_succ, List.foldl_append, List.foldl_cons,
    List.foldl_nil]
  rw [mode3_fold_pixel_other y x hy _ (by
    intro z hz
    obtain ⟨i, hi, rfl⟩ := List.mem_map.mp hz
    have := List.mem_range.mp hi
    omega)]
  have hvpre : ((List.range x).foldl (mode3Step y) (fillBackdropLine s y)).vram = s.vram := by
    rw [mode3_fold_vram]
    exact fillBackdropLine_proj Core.vram (fun _ _ _ => rfl) s y
  rw [mode3Step_hit y x _ c (by
      show _ + 256 * _ = c
      rw [show ∀ o : Nat, ((List.range x).foldl (mode3Step y) (fillBackdropLine s y)).vram o =
        s.vram o from fun o => by rw [hvpre]]
      rw [show ∀ o : Nat, ((List.range x).foldl (mode3Step y) (fillBackdropLine s y)).vram o =
        s.vram o from fun o => by rw [hvpre]]
      exact hvc)
    (by omega) hc0]
  rw [pixelAt_fdWrite4_same _ _ _ _ _ _ _ hx hy, rgb888]

/-- C5 (corrected): with DISPCNT mode bits 3 and forced blank clear, for
every pixel (x, y) with x < 240 and y < 160 and every NONZERO 15-bit
colour c, a bus write of c to VRAM at `0x06000000 + (y*240+x)*2` followed
by rendering scanline y places the RGB888 expansion of c (with alpha
0xFF) at pixel (x, y) of the frame buffer.  The spec's unrestricted
"every 15-bit color" is false: the renderer skips the value 0, leaving
the backdrop colour (see the counterexample). -/
theorem mode3_write_then_render (st : Core) (x y c : Nat)
    (hx : x < 240) (hy : y < 160)
    (hmode : ioGet16 st 0x000 &&& 0x7 = 3) (hblank : ioGet16 st 0x000 &&& 0x80 = 0)
    (hc : c < 0x8000) (hc0 : c ≠ 0) :
    (busWrite16 st (0x06000000 + (y * 240 + x) * 2) c).map
        (fun s => pixelAt (renderScanLine s y) x y) = some (rgb888 c) := by
  rw [busWrite16]
  rw [write16Body_vram _ st _ c (by omega) (by omega) (by omega) (by omega)]
  rw [Option.map_some']
  refine congrArg some ?_
  show pixelAt (renderScanLine _ y) x y = rgb888 c
  have hoff : (0x06000000 + (y * 240 + x) * 2 - 0x06000000) % 0x18000 = (y * 240 + x) * 2 := by
    omega
  rw [hoff]
  refine renderScanLine_mode3_pixel _ x y c hx hy hmode hblank ?_ hc0
  show store16 st.vram _ c _ + 256 * store16 st.vram _ c _ = c
  rw [store16_at, store16_at1]
  omega

set_option maxRecDepth 30000 in
/-- C5 counterexample to the spec's unrestricted claim: in a reachable
mode-3 state whose backdrop colour is white, writing colour 0 to the
VRAM cell of pixel (239, 0) and rendering leaves that pixel white,
not `rgb888 0` (opaque black). -/
theorem mode3_write_then_render_counterexample :
    mode3CtxState.bind (fun s1 => (busWrite16 s1 (0x06000000 + (0 * 240 + 239) * 2) 0).map
        (fun s => pixelAt (renderScanLine s 0) 239 0)) = some (255, 255, 255, 255) ∧
    (255, 255, 255, 255) ≠ rgb888 0 ∧
    mode3CtxState.map (fun s1 => ioGet16 s1 0x000 &&& 0x7) = some 3 :=
  ⟨by decide, by decide, by decide⟩

/-- Witness for C5: white at pixel (5, 7). -/
theorem mode3_write_then_render_witness :
    (5 < 240 ∧ 7 < 160 ∧ ioGet16 mode3WitState 0x000 &&& 0x7 = 3 ∧
     ioGet16 mode3WitState 0x000 &&& 0x80 = 0 ∧ 0x7FFF < 0x8000 ∧ (0x7FFF : Nat) ≠ 0) ∧
    (busWrite16 mode3WitState (0x06000000 + (7 * 240 + 5) * 2) 0x7FFF).map
        (fun s => pixelAt (renderScanLine s 7) 5 7) = some (rgb888 0x7FFF) :=
  ⟨by decide,
   mode3_write_then_render mode3WitState 5 7 0x7FFF (by decide) (by decide) (by decide)
     (by decide) (by decide) (by decide)⟩

/-! ## C7: the DMA3 trigger and copy -/

lemma and_ffff16 (x : Nat) (h : x < 65536) : x &&& 0xFFFF = x := by
  rw [Nat.and_pow_two_sub_one_eq_mod x 16]
  exact Nat.mod_eq_of_lt h

lemma write16Body_io (hiow : Core → Nat → Nat → Option Core) (st : Core) (a v : Nat)
    (h4 : 0x04000000 ≤ a) (h4b : a < 0x04000400) (hv : v < 65536)
    (hfit : a - 0x04000000 + 2 ≤ 0x400) :
    write16Body hiow st a v =
      hiow { st with ioRegs := store16 st.ioRegs (a - 0x04000000) v } a v := by
  rw [write16Body, Nat.mod_eq_of_lt (show a < 4294967296 by omega), Nat.mod_eq_of_lt hv]
  rw [if_pos ⟨h4, h4b⟩]
  rw [dvSet16, if_pos hfit]
  rfl

lemma observerAt_succ (d : Nat) :
    observerAt (d + 1) =
      handleIOWriteBody (dmaTransferBody (write16Body (observerAt d))
        (write32Body (write16Body (observerAt d)))) := rfl

lemma busRead16_io (st : Core) (a : Nat)
    (h4 : 0x04000000 ≤ a) (h4b : a + 2 ≤ 0x04000400) :
    busRead16 a st =
      some (st.ioRegs (a - 0x04000000) + 256 * st.ioRegs (a - 0x04000000 + 1)) := by
  rw [busRead16_notBios st a (by omega) (by omega), busRead16Tail,
    if_pos ⟨h4, by omega⟩, dvGet16, if_pos (by omega)]

lemma busRead32Tail_noRom (st : Core) (a : Nat) (ha : a < 0x08000000) :
    busRead32Tail st a =
      (busRead16 a st).bind (fun lo =>
        (busRead16 (a + 2) st).bind (fun hi => some (lo + 65536 * hi))) := by
  have hn : ¬ 0x08000000 ≤ a := by omega
  rcases hr : st.romData with _ | rom <;> simp [busRead32Tail, hr, hn]

lemma busRead32_io (st : Core) (a : Nat)
    (h4 : 0x04000000 ≤ a) (h4b : a + 4 ≤ 0x04000400) :
    busRead32 a st =
      some (st.ioRegs (a - 0x04000000) + 256 * st.ioRegs (a - 0x04000000 + 1) +
        65536 * (st.ioRegs (a - 0x04000000 + 2) + 256 * st.ioRegs (a - 0x04000000 + 3))) := by
  rw [busRead32_notBios st a (by omega) (by omega), busRead32Tail_noRom st a (by omega)]
  rw [busRead16_io st a (by omega) (by omega), busRead16_io st (a + 2) (by omega) (by omega)]
  rw [Option.some_bind, Option.some_bind]
  rw [show a + 2 - 0x04000000 = a - 0x04000000 + 2 from by omega,
    show a - 0x04000000 + 2 + 1 = a - 0x04000000 + 3 from by omega]

lemma busRead16_vram (st : Core) (a : Nat)
    (h6 : 0x06000000 ≤ a) (h7 : a + 2 ≤ 0x06018000) :
    busRead16 a st =
      some (st.vram (a - 0x06000000) + 256 * st.vram (a - 0x06000000 + 1)) := by
  rw [busRead16_notBios st a (by omega) (by omega), busRead16Tail,
    if_neg (by omega), if_neg (by omega), if_pos ⟨h6, by omega⟩, dvGet16]
  rw [Nat.mod_eq_of_lt (show a - 0x06000000 < 0x18000 by omega), if_pos (by omega)]

lemma store16_lt256 (m : Nat → Nat) (o v : Nat) (hm : ∀ j, m j < 256) :
    ∀ j, store16 m o v j < 256 := by
  intro j
  unfold store16 fupd
  split
  · omega
  · split
    · omega
    · exact hm j

lemma dmaLoop_vram (d : Nat) : ∀ (n : Nat) (st : Core) (so do2 : Nat),
    so + 2 * n ≤ 0x18000 → do2 + 2 * n ≤ 0x18000 →
    (so + 2 * n ≤ do2 ∨ do2 + 2 * n ≤ so) →
    (∀ j, st.vram j < 256) →
    ∃ st2,
      dmaLoopGo (write16Body (observerAt d)) (write32Body (write16Body (observerAt d))) 2 n
        st (0x06000000 + so) (0x06000000 + do2) = some st2 ∧
      (∀ j, j < 2 * n → st2.vram (do2 + j) = st.vram (so + j)) ∧
      (∀ j, j < do2 ∨ do2 + 2 * n ≤ j → st2.vram j = st.vram j) ∧
      (∀ j, st2.vram j < 256) := by
  intro n
  induction n with
  | zero =>
    intro st so do2 _ _ _ hb
    exact ⟨st, rfl, fun j hj => absurd hj (by omega), fun j _ => rfl, hb⟩
  | succ n ih =>
    intro st so do2 hso hdo hdisj hb
    obtain ⟨st2, hrec, hA, hB, hD⟩ :=
      ih { st with vram := store16 st.vram do2 (st.vram so + 256 * st.vram (so + 1)) }
        (so + 2) (do2 + 2) (by omega) (by omega) (by omega) (store16_lt256 _ _ _ hb)
    refine ⟨st2, ?_, ?_, ?_, hD⟩
    · rw [dmaLoopGo]
      rw [if_neg (by omega)]
      rw [busRead16_vram st (0x06000000 + so) (by omega) (by omega)]
      rw [show 0x06000000 + so - 0x06000000 = so from by omega]
      dsimp only
      rw [write16Body_vram _ st _ _ (by omega) (by omega)
        (by have := hb so; have := hb (so + 1); omega) (by omega)]
      rw [show (0x06000000 + do2 - 0x06000000) % 0x18000 = do2 from by omega]
      dsimp only
      rw [show 0x06000000 + so + 2 = 0x06000000 + (so + 2) from by omega,
        show 0x06000000 + do2 + 2 = 0x06000000 + (do2 + 2) from by omega]
      exact hrec
    · intro j hj
      by_cases hj2 : j < 2
      · rw [hB (do2 + j) (Or.inl (by omega)), vram_upd]
        have hb0 := hb so
        have hb1 := hb (so + 1)
        have : j = 0 ∨ j = 1 := by omega
        rcases this with rfl | rfl
        · rw [show do2 + 0 = do2 from rfl, store16_at, show so + 0 = so from rfl]
          omega
        · rw [store16_at1]
          omega
      · have h1 := hA (j - 2) (by omega)
        rw [show do2 + j = do2 + 2 + (j - 2) from by omega, h1,
          show so + 2 + (j - 2) = so + j from by omega, vram_upd]
        exact store16_other _ _ _ _ (by omega) (by omega)
    · intro j hj
      rw [hB j (by omega), vram_upd]
      exact store16_other _ _ _ _ (by omega) (by omega)

/-- C7 (corrected): a bus write with bit 15 set to DMA3CNT_H
(`0x40000DA`) triggers DMA channel 3.  With stored count `cntL = 0` the
unit count N is 0x4000 = 16384 (zero-means-max); with `cntL > 0` it is
`cntL`.  For a 16-bit-unit transfer between NON-OVERLAPPING VRAM REGIONS,
exactly the 2·N destination bytes are written, each equal to the
corresponding source byte, and every other VRAM byte is unchanged.  The
spec's unrestricted byte-for-byte property is false outside this
carve-out: `read16` has no EWRAM/IWRAM read path, so a DMA whose source
lies there copies zeros (see the counterexample), and `write16` silently
drops OAM/ROM destinations. -/
theorem dma3_trigger_copies (st : Core) (v src dst cntL cntH N : Nat)
    (hv15 : v &&& 0x8000 ≠ 0) (hv : v < 65536)
    (hio : ∀ j, st.ioRegs j < 256)
    (hvb : ∀ j, st.vram j < 256)
    (hsrc : st.ioRegs 0xCC + 256 * st.ioRegs 0xCD +
      65536 * (st.ioRegs 0xCE + 256 * st.ioRegs 0xCF) = src)
    (hdst : st.ioRegs 0xD0 + 256 * st.ioRegs 0xD1 +
      65536 * (st.ioRegs 0xD2 + 256 * st.ioRegs 0xD3) = dst)
    (hcntL : st.ioRegs 0xD6 + 256 * st.ioRegs 0xD7 = cntL)
    (hcntH : st.ioRegs 0xD8 + 256 * st.ioRegs 0xD9 = cntH)
    (hH10 : cntH &&& 0x400 = 0)
    (hN : N = if cntL = 0 then 0x4000 else cntL)
    (ha4 : src % 4 = 0) (ha2 : dst % 2 = 0)
    (hs6 : 0x06000000 ≤ src) (hs7 : src + 2 * N ≤ 0x06018000)
    (hd6 : 0x06000000 ≤ dst) (hd7 : dst + 2 * N ≤ 0x06018000)
    (hdisj : src + 2 * N ≤ dst ∨ dst + 2 * N ≤ src) :
    ∃ st3, busWrite16 st 0x40000DA v = some st3 ∧
      (∀ j, j < 2 * N → st3.vram (dst - 0x06000000 + j) = st.vram (src - 0x06000000 + j)) ∧
      (∀ j, j < dst - 0x06000000 ∨ dst - 0x06000000 + 2 * N ≤ j →
        st3.vram j = st.vram j) := by
  have hcl : cntL < 65536 := by have := hio 0xD6; have := hio 0xD7; omega
  have hN0 : ¬ N = 0 := by rw [hN]; split <;> omega
  have hv1 : (flushRenderQueue { st with ioRegs := store16 st.ioRegs 0xDA v }).vram
      = st.vram := by rw [flush_vram]
  have hvb1 : ∀ j,
      (flushRenderQueue { st with ioRegs := store16 st.ioRegs 0xDA v }).vram j < 256 := by
    intro j
    rw [hv1]
    exact hvb j
  have hio1 : ∀ j, j < 0xDA →
      (flushRenderQueue { st with ioRegs := store16 st.ioRegs 0xDA v }).ioRegs j
        = st.ioRegs j := by
    intro j hj
    rw [flush_ioRegs]
    show store16 st.ioRegs 0xDA v j = st.ioRegs j
    exact store16_other _ _ _ _ (by omega) (by omega)
  obtain ⟨st2, hloop, hA, hB, hD⟩ :=
    dmaLoop_vram 7 N (flushRenderQueue { st with ioRegs := store16 st.ioRegs 0xDA v })
      (src - 0x06000000) (dst - 0x06000000) (by omega) (by omega) (by omega) hvb1
  have hv2 : cntH &&& 0x7FFF < 65536 := by
    have h := @Nat.and_le_right cntH 0x7FFF
    omega
  have hrun : busWrite16 st 0x40000DA v =
      some (flushRenderQueue { st2 with ioRegs := store16 st2.ioRegs 0xD8 (cntH &&& 0x7FFF) }) := by
    rw [busWrite16, write16Body_io _ st _ v (by norm_num) (by norm_num) hv (by norm_num)]
    rw [show (0x40000DA : Nat) - 0x04000000 = 0xDA from by norm_num]
    rw [show (8 : Nat) = 7 + 1 from rfl, observerAt_succ, handleIOWriteBody]
    rw [show (0x40000DA : Nat) - 0x04000000 = 0xDA from by norm_num]
    rw [if_pos (show (0xDA : Nat) < 0x100 by norm_num),
      if_neg (show ¬ (0xDA : Nat) = 0 by norm_num), if_pos rfl, if_pos hv15]
    rw [dmaTransferBody]
    dsimp only
    rw [show (0x40000B0 + 3 * 12 : Nat) - 8 = 0x40000CC from by norm_num,
      show (0x40000B0 + 3 * 12 : Nat) - 4 = 0x40000D0 from by norm_num,
      show (0x40000B0 + 3 * 12 : Nat) + 4 = 0x40000D8 from by norm_num,
      show (0x40000B0 + 3 * 12 : Nat) + 2 = 0x40000D6 from by norm_num]
    rw [busRead32_io _ 0x40000CC (by norm_num) (by norm_num),
      busRead32_io _ 0x40000D0 (by norm_num) (by norm_num),
      busRead16_io _ 0x40000D8 (by norm_num) (by norm_num),
      busRead16_io _ 0x40000D6 (by norm_num) (by norm_num)]
    rw [show (0x40000CC : Nat) - 0x04000000 = 0xCC from by norm_num,
      show (0xCC : Nat) + 1 = 0xCD from by norm_num,
      show (0xCC : Nat) + 2 = 0xCE from by norm_num,
      show (0xCC : Nat) + 3 = 0xCF from by norm_num,
      show (0x40000D0 : Nat) - 0x04000000 = 0xD0 from by norm_num,
      show (0xD0 : Nat) + 1 = 0xD1 from by norm_num,
      show (0xD0 : Nat) + 2 = 0xD2 from by norm_num,
      show (0xD0 : Nat) + 3 = 0xD3 from by norm_num,
      show (0x40000D8 : Nat) - 0x04000000 = 0xD8 from by norm_num,
      show (0xD8 : Nat) + 1 = 0xD9 from by norm_num,
      show (0x40000D6 : Nat) - 0x04000000 = 0xD6 from by norm_num,
      show (0xD6 : Nat) + 1 = 0xD7 from by norm_num]
    rw [hio1 0xCC (by norm_num), hio1 0xCD (by norm_num), hio1 0xCE (by norm_num),
      hio1 0xCF (by norm_num), hio1 0xD0 (by norm_num), hio1 0xD1 (by norm_num),
      hio1 0xD2 (by norm_num), hio1 0xD3 (by norm_num), hio1 0xD8 (by norm_num),
      hio1 0xD9 (by norm_num), hio1 0xD6 (by norm_num), hio1 0xD7 (by norm_num)]
    rw [hsrc, hdst, hcntL, hcntH]
    dsimp only
    rw [and_ffff16 cntL hcl, ← hN, if_neg hN0]
    rw [if_neg (show ¬ cntH &&& 0x400 ≠ 0 from fun h => h hH10)]
    rw [show src - src % 4 = src from by omega, show dst - dst % 2 = dst from by omega]
    rw [show src = 0x06000000 + (src - 0x06000000) from by omega,
      show dst = 0x06000000 + (dst - 0x06000000) from by omega]
    rw [hloop]
    dsimp only
    rw [write16Body_io _ st2 _ _ (by norm_num) (by norm_num) hv2 (by norm_num)]
    rw [show (0x40000D8 : Nat) - 0x04000000 = 0xD8 from by norm_num]
    rw [show (7 : Nat) = 6 + 1 from rfl, observerAt_succ, handleIOWriteBody]
    rw [show (0x40000D8 : Nat) - 0x04000000 = 0xD8 from by norm_num]
    rw [if_pos (show (0xD8 : Nat) < 0x100 by norm_num),
      if_neg (show ¬ (0xD8 : Nat) = 0 by norm_num),
      if_neg (show ¬ (0xD8 : Nat) = 0xDA by norm_num)]
  refine ⟨_, hrun, ?_, ?_⟩
  · intro j hj
    rw [flush_vram]
    show st2.vram (dst - 0x06000000 + j) = st.vram (src - 0x06000000 + j)
    rw [hA j hj, hv1]
  · intro j hj
    rw [flush_vram]
    show st2.vram j = st.vram j
    rw [hB j hj, hv1]

lemma dmaWit_io : ∀ j, dmaWitState.ioRegs j < 256 := by
  intro j
  show (if j = 0xCF then 6 else if j = 0xD1 then 1 else if j = 0xD3 then 6
    else if j = 0xD6 then 2 else 0) < 256
  repeat' split
  all_goals omega

lemma dmaWit_vb : ∀ j, dmaWitState.vram j < 256 := by
  intro j
  show (if j < 4 then j + 10 else 0) < 256
  split <;> omega

/-- Witness for C7: a 2-unit VRAM copy from 0x06000000 to 0x06000100. -/
theorem dma3_trigger_copies_witness :
    ((0x8000 : Nat) &&& 0x8000 ≠ 0) ∧ ((0x8000 : Nat) < 65536) ∧
    (dmaWitState.ioRegs 0xCC + 256 * dmaWitState.ioRegs 0xCD +
      65536 * (dmaWitState.ioRegs 0xCE + 256 * dmaWitState.ioRegs 0xCF) = 0x06000000) ∧
    (dmaWitState.ioRegs 0xD0 + 256 * dmaWitState.ioRegs 0xD1 +
      65536 * (dmaWitState.ioRegs 0xD2 + 256 * dmaWitState.ioRegs 0xD3) = 0x06000100) ∧
    (dmaWitState.ioRegs 0xD6 + 256 * dmaWitState.ioRegs 0xD7 = 2) ∧
    (dmaWitState.ioRegs 0xD8 + 256 * dmaWitState.ioRegs 0xD9 = 0) ∧
    ((0 : Nat) &&& 0x400 = 0) ∧ ((2 : Nat) = if (2 : Nat) = 0 then 0x4000 else 2) ∧
    (∃ st3, busWrite16 dmaWitState 0x40000DA 0x8000 = some st3 ∧
      (∀ j, j < 2 * 2 → st3.vram (0x06000100 - 0x06000000 + j) =
        dmaWitState.vram (0x06000000 - 0x06000000 + j)) ∧
      (∀ j, j < 0x06000100 - 0x06000000 ∨ 0x06000100 - 0x06000000 + 2 * 2 ≤ j →
        st3.vram j = dmaWitState.vram j)) :=
  ⟨by decide, by decide, by decide, by decide, by decide, by decide, by decide, by decide,
   dma3_trigger_copies dmaWitState 0x8000 0x06000000 0x06000100 2 0 2 (by decide) (by decide)
     dmaWit_io dmaWit_vb (by decide) (by decide) (by decide) (by decide) (by decide) (by decide)
     (by decide) (by decide) (by decide) (by decide) (by decide) (by decide) (by decide)⟩

/-- C7 counterexample to the spec's unrestricted byte-for-byte property:
with DMA3 configured src = 0x02000000 (External WRAM, holding marker byte
0xAB), dst = 0x06000000 (VRAM, initially 0x77) and count 1 —
non-overlapping regions — the triggered transfer completes and its unit
write overwrites the destination bytes with 0, because `read16` has no
EWRAM read path; the destination byte 0 differs from the source byte
0xAB. -/
theorem dma3_trigger_copies_counterexample :
    (busWrite16 dmaCtrState 0x40000DA 0x8000).map
        (fun s => (s.vram 0, s.vram 1, s.ewram 0)) = some (0, 0, 0xAB) ∧
    (0 : Nat) ≠ 0xAB :=
  ⟨by decide, by decide⟩
